import Mathlib

/-!
# Cursor bridge of the portfolio site

A shallow embedding of `assets/js/script.js` (the `<spline-viewer>` page) and of the
matching fragments of `futuristic-portfolio/assets/js/script.js` (the iframe page):
`throttle`, `safeEmit`, the readiness detector (`onViewerReady`, `tryBindReady`),
`normViewport`, `sendCursor` and the timers that dispatch envelopes.

Conventions of the embedding
* JavaScript numbers are `JSNum`: exact rationals for the finite values, together with
  `Infinity`, `-Infinity` and `NaN`.  Rounding and the sign of zero are not modelled.
* A plain object (a payload, a posted message) is the map from its own property names to
  their values.
* A call that has effects returns the list of effects it performed, in order.
-/

namespace Portfolio

/-! ## Numbers -/

/-- JavaScript number: a finite value (kept exact), or one of the three special values. -/
inductive JSNum where
  | fin (q : ℚ)
  | posInf
  | negInf
  | nan
  deriving DecidableEq

namespace JSNum

/-- The JavaScript operator `a / b`.  A zero divisor is the positive zero. -/
def div : JSNum → JSNum → JSNum
  | nan, _ => nan
  | _, nan => nan
  | fin x, fin y =>
    if y = 0 then (if x = 0 then nan else if 0 < x then posInf else negInf) else fin (x / y)
  | fin _, posInf => fin 0
  | fin _, negInf => fin 0
  | posInf, fin y => if 0 ≤ y then posInf else negInf
  | negInf, fin y => if 0 ≤ y then negInf else posInf
  | posInf, posInf => nan
  | posInf, negInf => nan
  | negInf, posInf => nan
  | negInf, negInf => nan

/-- The JavaScript operator `a * b`. -/
def mul : JSNum → JSNum → JSNum
  | nan, _ => nan
  | _, nan => nan
  | fin x, fin y => fin (x * y)
  | fin x, posInf => if x = 0 then nan else if 0 < x then posInf else negInf
  | fin x, negInf => if x = 0 then nan else if 0 < x then negInf else posInf
  | posInf, fin y => if y = 0 then nan else if 0 < y then posInf else negInf
  | negInf, fin y => if y = 0 then nan else if 0 < y then negInf else posInf
  | posInf, posInf => posInf
  | posInf, negInf => negInf
  | negInf, posInf => negInf
  | negInf, negInf => posInf

/-- The JavaScript operator `a - b`. -/
def sub : JSNum → JSNum → JSNum
  | nan, _ => nan
  | _, nan => nan
  | fin x, fin y => fin (x - y)
  | fin _, posInf => negInf
  | fin _, negInf => posInf
  | posInf, fin _ => posInf
  | negInf, fin _ => negInf
  | posInf, posInf => nan
  | posInf, negInf => posInf
  | negInf, posInf => negInf
  | negInf, negInf => nan

/-- The JavaScript unary operator `-a`. -/
def neg : JSNum → JSNum
  | fin x => fin (-x)
  | posInf => negInf
  | negInf => posInf
  | nan => nan

/-- The closed interval test `lo ≤ a ≤ hi` on a number; false on `NaN` and the infinities. -/
def within (lo hi : ℚ) : JSNum → Prop
  | fin x => lo ≤ x ∧ x ≤ hi
  | _ => False

instance (lo hi : ℚ) (a : JSNum) : Decidable (within lo hi a) := by
  cases a <;> unfold within <;> infer_instance

end JSNum

/-! ## Coordinate normalisation -/

/-- The `{ nx, ny }` object returned by `normViewport`. -/
structure Normalized where
  nx : JSNum
  ny : JSNum
  deriving DecidableEq

/-- `normViewport(clientX, clientY)` of `assets/js/script.js`; the two viewport dimensions
`window.innerWidth` and `window.innerHeight` are read at the call.  The finite arithmetic is
exact here; `normViewportRounded` is the same expression with the rounding of each operation
made explicit. -/
def normViewport (innerWidth innerHeight clientX clientY : JSNum) : Normalized :=
  let nx := ((clientX.div innerWidth).mul (.fin 2)).sub (.fin 1)
  let ny := (((clientY.div innerHeight).mul (.fin 2)).sub (.fin 1)).neg
  ⟨nx, ny⟩

/-- The inline normalisation of `futuristic-portfolio/assets/js/script.js` (in `sendCursor`
and in the `touchmove` handler): the `x` and `y` of the two posted messages.  The finite
arithmetic is exact here, as in `normViewport`. -/
def iframeNorm (innerWidth innerHeight clientX clientY : JSNum) : Normalized :=
  let nx := ((clientX.div innerWidth).mul (.fin 2)).sub (.fin 1)
  let ny := (((clientY.div innerHeight).mul (.fin 2)).sub (.fin 1)).neg
  ⟨nx, ny⟩

/-- The expression of `normViewport` (and of the inline copies) on finite values and a nonzero
viewport, as floating-point arithmetic evaluates it: the result of the division, of the
multiplication and of the subtraction is each rounded by `rnd` to a representable number; the
unary minus is exact. -/
def normViewportRounded (rnd : ℚ → ℚ) (innerWidth innerHeight clientX clientY : ℚ) : ℚ × ℚ :=
  let nx := rnd (rnd (rnd (clientX / innerWidth) * 2) - 1)
  let ny := -(rnd (rnd (rnd (clientY / innerHeight) * 2) - 1))
  (nx, ny)

/-- A rounding to the grid of quarters, downwards: a sample of a rounding that loses
information. -/
def quarterRound (q : ℚ) : ℚ := (⌊q * 4⌋ : ℚ) / 4

/-- The inverse map the specification names: `clientX = (nx + 1) / 2 * viewportW` and
`clientY = (1 - ny) / 2 * viewportH`, on finite values. -/
def denormViewport (viewportW viewportH nx ny : ℚ) : ℚ × ℚ :=
  ((nx + 1) / 2 * viewportW, (1 - ny) / 2 * viewportH)

/-! ## Plain objects -/

/-- The values a payload field holds in this program: numbers, booleans and strings. -/
inductive Val where
  | num (n : JSNum)
  | bool (b : Bool)
  | str (s : String)
  deriving DecidableEq

/-- A plain object: each own property name with its value. -/
abbrev Obj := String → Option Val

/-- The empty object literal. -/
def Obj.empty : Obj := fun _ => none

/-- Assignment `o[key] = value`. -/
def Obj.set (o : Obj) (key : String) (value : Val) : Obj :=
  fun k => if k = key then some value else o k

/-- `Object.assign(target, source)`: every own property of the source is written onto the
target, replacing a property of the same name. -/
def objectAssign (target source : Obj) : Obj :=
  fun k => match source k with
    | some v => some v
    | none => target k

/-! ## The viewer element and the effects of a call -/

/-- How a call into the embedded component ends. -/
inductive Outcome where
  | returned
  | threw
  deriving DecidableEq

/-- The `contentWindow` of the inner iframe, with its `postMessage(message, targetOrigin)`. -/
structure ContentWindow where
  postMessage : Obj → String → Outcome

/-- An `iframe` element; `contentWindow` is `none` when it is null. -/
structure Iframe where
  contentWindow : Option ContentWindow

/-- A shadow root, with the result of `querySelector(selector)` (`none` for null). -/
structure ShadowRoot where
  querySelector : String → Option Iframe

/-- The object held in `viewer.viewer`; `emitEvent` is `some f` exactly when
`typeof viewer.viewer.emitEvent === "function"`. -/
structure InnerViewer where
  emitEvent : Option (String → Obj → Outcome)

/-- The `<spline-viewer>` element as `safeEmit` and the poll probe it.  `emitEvent` is `some f`
exactly when `typeof viewer.emitEvent === "function"`; `viewer` and `shadowRoot` are `none`
when the property is falsy. -/
structure Viewer where
  emitEvent : Option (String → Obj → Outcome)
  viewer : Option InnerViewer
  shadowRoot : Option ShadowRoot

/-- An observable effect of the bridge on its surroundings. -/
inductive Effect where
  | emitEvent (eventName : String) (payload : Obj)
  | innerEmitEvent (eventName : String) (payload : Obj)
  | postMessage (message : Obj) (targetOrigin : String)
  | warn

/-- Whether an effect is a delivery attempt on one of the three transports. -/
def Effect.isAttempt : Effect → Bool
  | .emitEvent _ _ => true
  | .innerEmitEvent _ _ => true
  | .postMessage _ _ => true
  | .warn => false

/-- How a piece of code completes: with a value, or by a thrown exception. -/
inductive Completion (α : Type) where
  | normal (value : α)
  | thrown
  deriving DecidableEq

/-- The result of running a piece of code: its effects in order, and its completion. -/
structure Run (α : Type) where
  effects : List Effect
  completion : Completion α

/-! ## safeEmit -/

/-- The `try` block of `safeEmit`.  It completes with `some b` at a `return b`, with `none`
when control falls out of the block, and is thrown when the transport call throws. -/
def safeEmitTry (viewer : Option Viewer) (eventName : String) (payload : Obj) :
    Run (Option Bool) :=
  match viewer with
  | none => ⟨[], .normal (some false)⟩
  | some v =>
    match v.emitEvent with
    | some f =>
      match f eventName payload with
      | .returned => ⟨[.emitEvent eventName payload], .normal (some true)⟩
      | .threw => ⟨[.emitEvent eventName payload], .thrown⟩
    | none =>
      match v.viewer.bind (fun inner => inner.emitEvent) with
      | some g =>
        match g eventName payload with
        | .returned => ⟨[.innerEmitEvent eventName payload], .normal (some true)⟩
        | .threw => ⟨[.innerEmitEvent eventName payload], .thrown⟩
      | none =>
        let iframe := v.shadowRoot.bind (fun root => root.querySelector "iframe")
        match iframe.bind (fun el => el.contentWindow) with
        | some w =>
          let message :=
            objectAssign
              ((Obj.empty.set "__from" (.str "spline-wrapper")).set "type" (.str eventName))
              payload
          match w.postMessage message "*" with
          | .returned => ⟨[.postMessage message "*"], .normal (some true)⟩
          | .threw => ⟨[.postMessage message "*"], .thrown⟩
        | none => ⟨[], .normal none⟩

/-- `safeEmit(viewer, eventName, payload)`: the `try` block, the `catch` that logs a warning,
and the final `return false`. -/
def safeEmit (viewer : Option Viewer) (eventName : String) (payload : Obj) : Run Bool :=
  let body := safeEmitTry viewer eventName payload
  match body.completion with
  | .normal (some b) => ⟨body.effects, .normal b⟩
  | .normal none => ⟨body.effects, .normal false⟩
  | .thrown => ⟨body.effects ++ [.warn], .normal false⟩

/-- A transport of the dispatcher, in the words of the specification: the direct method, the
method of the nested handle, or the message post to the inner frame. -/
inductive Transport where
  | direct (emitEvent : String → Obj → Outcome)
  | nested (emitEvent : String → Obj → Outcome)
  | post (contentWindow : ContentWindow)

/-- Whether `viewer.emitEvent` is a function. -/
def hasDirect (v : Viewer) : Bool := v.emitEvent.isSome

/-- Whether `viewer.viewer.emitEvent` is a function. -/
def hasNested (v : Viewer) : Bool :=
  match v.viewer with
  | some inner => inner.emitEvent.isSome
  | none => false

/-- Whether the shadow root holds an iframe with a `contentWindow`. -/
def hasFrameWindow (v : Viewer) : Bool :=
  match v.shadowRoot with
  | some root =>
    match root.querySelector "iframe" with
    | some el => el.contentWindow.isSome
    | none => false
  | none => false

/-- Whether at least one of the three transports is structurally present. -/
def hasTransport : Option Viewer → Bool
  | none => false
  | some v => hasDirect v || hasNested v || hasFrameWindow v

/-- The transport the specification selects: the first structurally present one in the order
direct, nested, post. -/
def chosenTransport : Option Viewer → Option Transport
  | none => none
  | some v =>
    match v.emitEvent with
    | some f => some (.direct f)
    | none =>
      match v.viewer with
      | some ⟨some g⟩ => some (.nested g)
      | _ =>
        match v.shadowRoot with
        | some root =>
          match root.querySelector "iframe" with
          | some ⟨some w⟩ => some (.post w)
          | _ => none
        | none => none

/-- The envelope the postMessage transport carries, in the words of the specification: the
payload tagged with the sender identifier and the event type. -/
def taggedMessage (eventName : String) (payload : Obj) : Obj :=
  objectAssign ((Obj.empty.set "__from" (.str "spline-wrapper")).set "type" (.str eventName))
    payload

/-- The delivery attempt a transport makes for an event. -/
def Transport.attempt (eventName : String) (payload : Obj) : Transport → Effect
  | .direct _ => .emitEvent eventName payload
  | .nested _ => .innerEmitEvent eventName payload
  | .post _ => .postMessage (taggedMessage eventName payload) "*"

/-- The outcome of the call a transport makes for an event. -/
def Transport.call (eventName : String) (payload : Obj) : Transport → Outcome
  | .direct f => f eventName payload
  | .nested g => g eventName payload
  | .post w => w.postMessage (taggedMessage eventName payload) "*"

/-! ## throttle -/

/-- The closure of a function returned by `throttle(fn, wait)` (the same function in both
scripts): the interval and the variable `last`. -/
structure Throttled where
  wait : Int
  last : Int

/-- `throttle(fn, wait)`: the closure starts with `last = 0`. -/
def throttle (wait : Int) : Throttled := ⟨wait, 0⟩

/-- One call of the returned function with arguments `args` when `Date.now()` reads `now`:
the closure afterwards, and the arguments `fn` was invoked with (`none` when `fn` was not
invoked). -/
def Throttled.call {α : Type} (t : Throttled) (now : Int) (args : α) : Throttled × Option α :=
  if now - t.last ≥ t.wait then (⟨t.wait, now⟩, some args) else (t, none)

/-- A sequence of calls, each with its clock reading and its arguments: the closure
afterwards and the arguments of the invocations of `fn`, in order. -/
def Throttled.calls {α : Type} (t : Throttled) : List (Int × α) → Throttled × List α
  | [] => (t, [])
  | (now, args) :: rest =>
    let r := t.call now args
    let rs := r.1.calls rest
    (rs.1, r.2.toList ++ rs.2)

/-! ## The readiness detector -/

/-- The fallback image: the inline style properties the script writes, and whether the
element has a parent node. -/
structure FallbackImage where
  transition : String
  opacity : String
  display : String
  parentNode : Bool
  deriving DecidableEq

/-- The state of the page that the initializer of `assets/js/script.js` reads and writes.
`readyCalls` counts the invocations of `onViewerReady`; `hideTimers` counts the pending
700 ms timeouts; the three `Bound` flags say whether the one-shot listener is still attached;
`polling` says whether the interval is still set. -/
structure Page where
  viewerReady : Bool
  holderClasses : List String
  fallbackImage : Option FallbackImage
  hideTimers : Nat
  loadBound : Bool
  readyBound : Bool
  viewerReadyBound : Bool
  polling : Bool
  start : Int
  readyCalls : Nat
  deriving DecidableEq

/-- `classList.add(name)`. -/
def classListAdd (classes : List String) (name : String) : List String :=
  if name ∈ classes then classes else classes ++ [name]

/-- `onViewerReady()`. -/
def onViewerReady (p : Page) : Page :=
  { p with
    viewerReady := true
    holderClasses := classListAdd p.holderClasses "spline-loaded"
    fallbackImage := p.fallbackImage.map
      (fun img => { img with transition := "opacity .6s ease", opacity := "0" })
    hideTimers := if p.fallbackImage.isSome then p.hideTimers + 1 else p.hideTimers
    readyCalls := p.readyCalls + 1 }

/-- The page when the initializer starts: the viewer is not ready, nothing is bound. -/
def initialPage (holderClasses : List String) (fallbackImage : Option FallbackImage) : Page :=
  { viewerReady := false
    holderClasses := holderClasses
    fallbackImage := fallbackImage
    hideTimers := 0
    loadBound := false
    readyBound := false
    viewerReadyBound := false
    polling := false
    start := 0
    readyCalls := 0 }

/-- `tryBindReady()` when `Date.now()` reads `now`: the three one-shot listeners are attached
and the interval is set. -/
def tryBindReady (p : Page) (now : Int) : Page :=
  { p with loadBound := true, readyBound := true, viewerReadyBound := true,
           polling := true, start := now }

/-- The timeout of the poll, in milliseconds. -/
def pollTimeout : Int := 4000

/-- The period of the poll, in milliseconds. -/
def pollInterval : Int := 220

/-- The period of the head-bob timer, in milliseconds. -/
def headBobInterval : Int := 5600

/-- The callback of the poll interval, for the viewer as it is at the tick and the reading
`now` of `Date.now()`. -/
def pollTick (p : Page) (splineViewer : Viewer) (now : Int) : Page :=
  if splineViewer.emitEvent.isSome then onViewerReady { p with polling := false }
  else
    let iframe := splineViewer.shadowRoot.bind (fun root => root.querySelector "iframe")
    if (iframe.bind (fun el => el.contentWindow)).isSome then
      onViewerReady { p with polling := false }
    else if now - p.start > pollTimeout then onViewerReady { p with polling := false }
    else p

/-- The callback of the 700 ms timeout set by `onViewerReady`. -/
def hideFallback (p : Page) : Page :=
  { p with
    hideTimers := p.hideTimers - 1
    fallbackImage := p.fallbackImage.map
      (fun img => if img.parentNode then { img with display := "none" } else img) }

/-- A signal reaching the readiness detector. -/
inductive Signal where
  | load
  | ready
  | viewerReadyEvent
  | pollTick (splineViewer : Viewer) (now : Int)
  | hideTimeout

/-- The reaction of the page to one signal.  An event reaches `onViewerReady` only through a
listener that is still attached (`once: true` detaches it), a tick only while the interval is
set, a timeout only while one is pending. -/
def Page.step (p : Page) : Signal → Page
  | .load => if p.loadBound then onViewerReady { p with loadBound := false } else p
  | .ready => if p.readyBound then onViewerReady { p with readyBound := false } else p
  | .viewerReadyEvent =>
    if p.viewerReadyBound then onViewerReady { p with viewerReadyBound := false } else p
  | .pollTick splineViewer now => if p.polling then pollTick p splineViewer now else p
  | .hideTimeout => if 0 < p.hideTimers then hideFallback p else p

/-- The reaction of the page to a sequence of signals. -/
def Page.run (p : Page) (signals : List Signal) : Page := signals.foldl Page.step p

/-! ## Dispatch -/

/-- A point of contact of a touch event. -/
structure Touch where
  clientX : JSNum
  clientY : JSNum

/-- A mouse or touch event as the handlers read it: `clientX` and `clientY` are `none` when
undefined, `touches` is `none` when the event has no such property. -/
structure MoveEvent where
  clientX : Option JSNum
  clientY : Option JSNum
  touches : Option (List Touch)

/-- The number an operand of `/` stands for: `undefined` converts to `NaN`. -/
def toNumber : Option JSNum → JSNum
  | some a => a
  | none => .nan

/-- The payload `{ x: nx, y: ny }`. -/
def pointPayload (nx ny : JSNum) : Obj := (Obj.empty.set "x" (.num nx)).set "y" (.num ny)

/-- `sendCursorInternal(nx, ny)`. -/
def sendCursorInternal (splineViewer : Option Viewer) (nx ny : JSNum) : Run Bool :=
  let r1 := safeEmit splineViewer "cursorHeadFast" (pointPayload nx ny)
  match r1.completion with
  | .thrown => ⟨r1.effects, .thrown⟩
  | .normal ok1 =>
    let r2 := safeEmit splineViewer "cursorBodySlow" (pointPayload nx ny)
    match r2.completion with
    | .thrown => ⟨r1.effects ++ r2.effects, .thrown⟩
    | .normal ok2 => ⟨r1.effects ++ r2.effects, .normal (ok1 || ok2)⟩

/-- The function handed to `throttle` to make `sendCursor`. -/
def sendCursorBody (viewerReady : Bool) (splineViewer : Option Viewer)
    (innerWidth innerHeight : JSNum) (e : MoveEvent) : Run Unit :=
  if !viewerReady && splineViewer.isNone then ⟨[], .normal ()⟩
  else
    let c : Option JSNum × Option JSNum :=
      match e.clientX, e.touches with
      | none, some (t :: _) => (some t.clientX, some t.clientY)
      | _, _ => (e.clientX, e.clientY)
    let n := normViewport innerWidth innerHeight (toNumber c.1) (toNumber c.2)
    let r := sendCursorInternal splineViewer n.nx n.ny
    match r.completion with
    | .thrown => ⟨r.effects, .thrown⟩
    | .normal _ => ⟨r.effects, .normal ()⟩

/-- One call of `sendCursor = throttle(..., 16)` with event `e` when `Date.now()` reads `now`. -/
def sendCursor (t : Throttled) (now : Int) (viewerReady : Bool) (splineViewer : Option Viewer)
    (innerWidth innerHeight : JSNum) (e : MoveEvent) : Throttled × Run Unit :=
  let r := t.call now e
  match r.2 with
  | some ev => (r.1, sendCursorBody viewerReady splineViewer innerWidth innerHeight ev)
  | none => (r.1, ⟨[], .normal ()⟩)

/-- The callback of the head-bob interval when `Date.now()` reads `now`. -/
def headBobTick (viewerReady : Bool) (splineViewer : Option Viewer) (now : Int) : Run Unit :=
  if !viewerReady then ⟨[], .normal ()⟩
  else
    let r := safeEmit splineViewer "headBob" (Obj.empty.set "t" (.num (.fin now)))
    match r.completion with
    | .thrown => ⟨r.effects, .thrown⟩
    | .normal _ => ⟨r.effects, .normal ()⟩

/-- The callback of the 900 ms `pageReady` timeout when `Date.now()` reads `now`. -/
def pageReadyTimer (viewerReady : Bool) (splineViewer : Option Viewer) (now : Int) : Run Unit :=
  if viewerReady then
    let r := safeEmit splineViewer "pageReady" (Obj.empty.set "t" (.num (.fin now)))
    match r.completion with
    | .thrown => ⟨r.effects, .thrown⟩
    | .normal _ => ⟨r.effects, .normal ()⟩
  else ⟨[], .normal ()⟩

/-- The envelopes a run delivered: the delivery attempts among its effects. -/
def Run.attempts {α : Type} (r : Run α) : List Effect := r.effects.filter Effect.isAttempt

/-! ## Sample viewers -/

/-- A viewer without any transport. -/
def bareViewer : Viewer := ⟨none, none, none⟩

/-- A viewer whose `emitEvent` is a function that returns. -/
def directViewer : Viewer := ⟨some (fun _ _ => .returned), none, none⟩

/-- A viewer whose only transport is the inner frame, with a `postMessage` that returns. -/
def frameViewer : Viewer :=
  ⟨none, none,
    some ⟨fun selector =>
      if selector = "iframe" then some ⟨some ⟨fun _ _ => .returned⟩⟩ else none⟩⟩

/-- A viewer whose `emitEvent` is a function that throws, and that also holds an inner frame
with a `postMessage` that returns. -/
def throwingViewer : Viewer :=
  ⟨some (fun _ _ => .threw), none, frameViewer.shadowRoot⟩

/-- The page right after `tryBindReady()` ran at clock reading `start`. -/
def boundPage (holderClasses : List String) (fallbackImage : Option FallbackImage)
    (start : Int) : Page :=
  tryBindReady (initialPage holderClasses fallbackImage) start

/-- The number of signal sources that can still invoke `onViewerReady`: the one-shot listeners
still attached, and the interval while it is set. -/
def Page.sources (p : Page) : Nat :=
  (if p.loadBound then 1 else 0) + (if p.readyBound then 1 else 0)
    + (if p.viewerReadyBound then 1 else 0) + (if p.polling then 1 else 0)

/-- A fallback image as the markup gives it, before any script ran. -/
def sampleFallback : FallbackImage := ⟨"", "", "", true⟩

/-! ## Presentation toggles -/

/-- `classList.remove(name)`. -/
def classListRemove (classes : List String) (name : String) : List String :=
  classes.filter (fun c => c ≠ name)

/-- `classList.toggle(name, force)`: the class is added when `force` is true and removed when
it is false. -/
def classListToggle (classes : List String) (name : String) (force : Bool) : List String :=
  if force then classListAdd classes name else classListRemove classes name

/-- The boolean `!!on` of an argument (`none` is `undefined`): `false`, `0`, `NaN`, the empty
string and `undefined` are falsy. -/
def truthy : Option Val → Bool
  | none => false
  | some (.bool b) => b
  | some (.num (.fin q)) => decide (q ≠ 0)
  | some (.num .nan) => false
  | some (.num _) => true
  | some (.str s) => decide (s ≠ "")

/-- The payload `{ value: !!on }`. -/
def valuePayload (onArg : Option Val) : Obj := Obj.empty.set "value" (.bool (truthy onArg))

/-- `window.toggleRobotAura(on)` of `assets/js/script.js`: the page afterwards and the run. -/
def toggleRobotAura (splineViewer : Option Viewer) (p : Page) (onArg : Option Val) :
    Page × Run Unit :=
  let r := safeEmit splineViewer "robotAura" (valuePayload onArg)
  match r.completion with
  | .thrown => (p, ⟨r.effects, .thrown⟩)
  | .normal _ =>
    let c1 := classListToggle p.holderClasses "robot-aura-on" (truthy onArg)
    let c2 := classListToggle c1 "robot-aura-off" (!truthy onArg)
    ({ p with holderClasses := c2 }, ⟨r.effects, .normal ()⟩)

/-- The message `{ type: "robotAura", value: !!on }` of the iframe script. -/
def auraMessage (onArg : Option Val) : Obj :=
  (Obj.empty.set "type" (.str "robotAura")).set "value" (.bool (truthy onArg))

/-- `window.toggleRobotAura(on)` of `futuristic-portfolio/assets/js/script.js`.  `holder` is
the class list of the element `splineHolder` and `iframe` the element `splineFrame`, each
`none` when `getElementById` returns null; the result is the class list afterwards and the
run. -/
def iframeToggleRobotAura (holder : Option (List String)) (iframe : Option Iframe)
    (onArg : Option Val) : Option (List String) × Run Unit :=
  match holder with
  | none => (none, ⟨[], .normal ()⟩)
  | some classes =>
    let c1 := classListToggle classes "robot-aura-on" (truthy onArg)
    let c2 := classListToggle c1 "robot-aura-off" (!truthy onArg)
    match iframe.bind (fun el => el.contentWindow) with
    | some w =>
      match w.postMessage (auraMessage onArg) "*" with
      | .returned => (some c2, ⟨[.postMessage (auraMessage onArg) "*"], .normal ()⟩)
      | .threw => (some c2, ⟨[.postMessage (auraMessage onArg) "*"], .thrown⟩)
    | none => (some c2, ⟨[], .normal ()⟩)

/-! ## The poll schedule -/

/-- Whether a poll tick finds a capability marker on the viewer: `emitEvent` is a function, or
the shadow root holds an iframe with a window. -/
def pollCapable (v : Viewer) : Bool := hasDirect v || hasFrameWindow v

/-- The first `n` ticks of the poll when no other signal arrives: tick `k` (counted from 1)
comes when `Date.now()` reads `start + pollInterval * k`, and finds the viewer `viewers k`. -/
def pollTicks (start : Int) (viewers : Nat → Viewer) (n : Nat) : List Signal :=
  (List.range n).map
    (fun i => Signal.pollTick (viewers (i + 1)) (start + pollInterval * ((i : Int) + 1)))

/-! ## Theorems: coordinate normalisation -/

/-- On finite inputs and a nonzero viewport, `normViewport` is the pair of affine maps. -/
theorem normViewport_fin (w h cx cy : ℚ) (hw : w ≠ 0) (hh : h ≠ 0) :
    normViewport (.fin w) (.fin h) (.fin cx) (.fin cy)
      = ⟨.fin (cx / w * 2 - 1), .fin (-(cy / h * 2 - 1))⟩ := by
  simp [normViewport, JSNum.div, JSNum.mul, JSNum.sub, JSNum.neg, hw, hh]

/-- The inline normalisation of the iframe script computes what `normViewport` computes. -/
theorem iframeNorm_eq (w h cx cy : JSNum) : iframeNorm w h cx cy = normViewport w h cx cy :=
  rfl

/-- The horizontal map lands in `[-1, 1]` exactly on `[0, w]`. -/
theorem affine_range (w c : ℚ) (hw : 0 < w) :
    (-1 ≤ c / w * 2 - 1 ∧ c / w * 2 - 1 ≤ 1) ↔ (0 ≤ c ∧ c ≤ w) := by
  constructor
  · rintro ⟨h1, h2⟩
    have h3 : 0 ≤ c / w := by linarith
    have h4 : c / w ≤ 1 := by linarith
    exact ⟨by
      rcases le_or_lt 0 c with hc | hc
      · exact hc
      · exact absurd (div_neg_of_neg_of_pos hc hw) (not_lt.mpr h3),
      (div_le_one hw).mp h4⟩
  · rintro ⟨h1, h2⟩
    have h3 : 0 ≤ c / w := div_nonneg h1 hw.le
    have h4 : c / w ≤ 1 := (div_le_one hw).mpr h2
    constructor <;> linarith

/-- The vertical map lands in `[-1, 1]` exactly on `[0, h]`. -/
theorem affine_range_neg (h c : ℚ) (hh : 0 < h) :
    (-1 ≤ -(c / h * 2 - 1) ∧ -(c / h * 2 - 1) ≤ 1) ↔ (0 ≤ c ∧ c ≤ h) := by
  rw [← affine_range h c hh]
  constructor <;> rintro ⟨h1, h2⟩ <;> constructor <;> linarith

/-- C4, the claim as stated fails: with a pointer at `clientX = 2000` in a viewport 1000 wide
(a drag or touch that left the window), `normViewport` returns `nx = 3`, outside `[-1, 1]`. -/
theorem C4_counterexample :
    (normViewport (.fin 1000) (.fin 500) (.fin 2000) (.fin 250)).nx = .fin 3 ∧
    ¬ JSNum.within (-1) 1 (normViewport (.fin 1000) (.fin 500) (.fin 2000) (.fin 250)).nx := by
  have h : (normViewport (.fin 1000) (.fin 500) (.fin 2000) (.fin 250)).nx = .fin 3 := by
    rw [normViewport_fin 1000 500 2000 250 (by norm_num) (by norm_num)]
    norm_num
  refine ⟨h, ?_⟩
  rw [h]
  simp only [JSNum.within]
  norm_num

/-- Through a monotone rounding that keeps 0, 1 and 2, the value `c / w * 2 - 1` of a
coordinate inside `[0, w]` stays in `[-1, 1]` after each operation is rounded. -/
theorem rounded_range (rnd : ℚ → ℚ) (hm : Monotone rnd) (hn : rnd (-1) = -1) (h0 : rnd 0 = 0)
    (h1 : rnd 1 = 1) (h2 : rnd 2 = 2) (w c : ℚ) (hw : 0 < w) (hc0 : 0 ≤ c) (hc1 : c ≤ w) :
    -1 ≤ rnd (rnd (rnd (c / w) * 2) - 1) ∧ rnd (rnd (rnd (c / w) * 2) - 1) ≤ 1 := by
  have a0 : 0 ≤ c / w := div_nonneg hc0 hw.le
  have a1 : c / w ≤ 1 := (div_le_one hw).mpr hc1
  have b0 : 0 ≤ rnd (c / w) := le_of_eq_of_le h0.symm (hm a0)
  have b1 : rnd (c / w) ≤ 1 := le_of_le_of_eq (hm a1) h1
  have c0 : 0 ≤ rnd (rnd (c / w) * 2) := by
    have : (0 : ℚ) ≤ rnd (c / w) * 2 := by linarith
    exact le_of_eq_of_le h0.symm (hm this)
  have c1 : rnd (rnd (c / w) * 2) ≤ 2 := by
    have : rnd (c / w) * 2 ≤ 2 := by linarith
    exact le_of_le_of_eq (hm this) h2
  constructor
  · have : (-1 : ℚ) ≤ rnd (rnd (c / w) * 2) - 1 := by linarith
    exact le_of_eq_of_le hn.symm (hm this)
  · have : rnd (rnd (c / w) * 2) - 1 ≤ 1 := by linarith
    exact le_of_le_of_eq (hm this) h1

/-- C4, amended: for a positive viewport and a finite pointer inside the viewport rectangle
(`0 ≤ clientX ≤ viewportW`, `0 ≤ clientY ≤ viewportH`), the `nx` and `ny` computed by
`normViewport` and by the inline copies of the iframe script lie in `[-1, 1]`; this holds in
exact arithmetic and when each operation is rounded by any monotone rounding that keeps -1, 0,
1 and 2. -/
theorem C4_inside_in_range (w h cx cy : ℚ) (hw : 0 < w) (hh : 0 < h)
    (hx0 : 0 ≤ cx) (hx1 : cx ≤ w) (hy0 : 0 ≤ cy) (hy1 : cy ≤ h) :
    JSNum.within (-1) 1 (normViewport (.fin w) (.fin h) (.fin cx) (.fin cy)).nx ∧
    JSNum.within (-1) 1 (normViewport (.fin w) (.fin h) (.fin cx) (.fin cy)).ny ∧
    JSNum.within (-1) 1 (iframeNorm (.fin w) (.fin h) (.fin cx) (.fin cy)).nx ∧
    JSNum.within (-1) 1 (iframeNorm (.fin w) (.fin h) (.fin cx) (.fin cy)).ny ∧
    (∀ rnd : ℚ → ℚ, Monotone rnd → rnd (-1) = -1 → rnd 0 = 0 → rnd 1 = 1 → rnd 2 = 2 →
      (-1 ≤ (normViewportRounded rnd w h cx cy).1 ∧ (normViewportRounded rnd w h cx cy).1 ≤ 1) ∧
      (-1 ≤ (normViewportRounded rnd w h cx cy).2 ∧ (normViewportRounded rnd w h cx cy).2 ≤ 1)) := by
  have hx := (affine_range w cx hw).mpr ⟨hx0, hx1⟩
  have hy := (affine_range_neg h cy hh).mpr ⟨hy0, hy1⟩
  refine ⟨?_, ?_, ?_, ?_, ?_⟩
  · rw [normViewport_fin w h cx cy hw.ne.symm hh.ne.symm]; exact hx
  · rw [normViewport_fin w h cx cy hw.ne.symm hh.ne.symm]; exact hy
  · rw [iframeNorm_eq, normViewport_fin w h cx cy hw.ne.symm hh.ne.symm]; exact hx
  · rw [iframeNorm_eq, normViewport_fin w h cx cy hw.ne.symm hh.ne.symm]; exact hy
  · intro rnd hm hn h0 h1 h2
    have rx := rounded_range rnd hm hn h0 h1 h2 w cx hw hx0 hx1
    have ry := rounded_range rnd hm hn h0 h1 h2 h cy hh hy0 hy1
    simp only [normViewportRounded]
    exact ⟨rx, by linarith [ry.2], by linarith [ry.1]⟩

/-- C4, the amended claim at the viewport 1000 x 500 and the pointer (250, 125), in exact
arithmetic and with every operation rounded down to quarters. -/
theorem C4_inside_in_range_witness :
    ((0 : ℚ) < 1000 ∧ (0 : ℚ) < 500 ∧ (0 : ℚ) ≤ 250 ∧ (250 : ℚ) ≤ 1000 ∧ (0 : ℚ) ≤ 125 ∧
      (125 : ℚ) ≤ 500) ∧
    JSNum.within (-1) 1 (normViewport (.fin 1000) (.fin 500) (.fin 250) (.fin 125)).nx ∧
    (Monotone quarterRound ∧ quarterRound (-1) = -1 ∧ quarterRound 0 = 0 ∧ quarterRound 1 = 1 ∧
      quarterRound 2 = 2) ∧
    (-1 ≤ (normViewportRounded quarterRound 1000 500 250 125).1 ∧
      (normViewportRounded quarterRound 1000 500 250 125).1 ≤ 1) := by
  have hm : Monotone quarterRound := by
    intro a b hab
    unfold quarterRound
    have : ⌊a * 4⌋ ≤ ⌊b * 4⌋ := Int.floor_mono (by linarith)
    have h2 : ((⌊a * 4⌋ : ℤ) : ℚ) ≤ ((⌊b * 4⌋ : ℤ) : ℚ) := by exact_mod_cast this
    linarith
  have hn : quarterRound (-1) = -1 := by simp [quarterRound]; norm_num
  have h0 : quarterRound 0 = 0 := by simp [quarterRound]
  have h1 : quarterRound 1 = 1 := by simp [quarterRound]
  have h2 : quarterRound 2 = 2 := by simp [quarterRound]; norm_num
  have hyp : (0 : ℚ) < 1000 ∧ (0 : ℚ) < 500 ∧ (0 : ℚ) ≤ 250 ∧ (250 : ℚ) ≤ 1000 ∧
      (0 : ℚ) ≤ 125 ∧ (125 : ℚ) ≤ 500 := by norm_num
  have key := C4_inside_in_range 1000 500 250 125 hyp.1 hyp.2.1 hyp.2.2.1 hyp.2.2.2.1
    hyp.2.2.2.2.1 hyp.2.2.2.2.2
  exact ⟨hyp, key.1, ⟨hm, hn, h0, h1, h2⟩, (key.2.2.2.2 quarterRound hm hn h0 h1 h2).1⟩

/-- C5, the claim as stated fails: in a viewport of width 0 the pointers at `clientX = 1` and
`clientX = 2` have the same normalized result (`nx` is `Infinity` for both), so no inverse map
recovers `clientX`. -/
theorem C5_counterexample :
    normViewport (.fin 0) (.fin 500) (.fin 1) (.fin 0)
      = normViewport (.fin 0) (.fin 500) (.fin 2) (.fin 0) ∧
    (normViewport (.fin 0) (.fin 500) (.fin 1) (.fin 0)).nx = .posInf ∧
    (JSNum.fin 1) ≠ (JSNum.fin 2) := by
  refine ⟨?_, ?_, ?_⟩
  · simp [normViewport, JSNum.div, JSNum.mul, JSNum.sub, JSNum.neg]
  · simp [normViewport, JSNum.div, JSNum.mul, JSNum.sub]
  · simp

/-- C5, amended: for nonzero viewport dimensions and finite pointer coordinates, the result of
`normViewport` is finite, the map `clientX = (nx + 1) / 2 * viewportW`,
`clientY = (1 - ny) / 2 * viewportH` takes it back to the pointer, and two pointers with the
same result under the same viewport are equal. -/
theorem C5_invertible (w h cx cy : ℚ) (hw : w ≠ 0) (hh : h ≠ 0) :
    (∃ nx ny : ℚ, normViewport (.fin w) (.fin h) (.fin cx) (.fin cy) = ⟨.fin nx, .fin ny⟩ ∧
      denormViewport w h nx ny = (cx, cy)) ∧
    (∀ cx2 cy2 : ℚ, normViewport (.fin w) (.fin h) (.fin cx) (.fin cy)
        = normViewport (.fin w) (.fin h) (.fin cx2) (.fin cy2) → cx = cx2 ∧ cy = cy2) := by
  have inv : ∀ a b : ℚ, denormViewport w h (a / w * 2 - 1) (-(b / h * 2 - 1)) = (a, b) := by
    intro a b
    simp only [denormViewport, Prod.mk.injEq]
    constructor <;> field_simp <;> ring
  refine ⟨⟨_, _, normViewport_fin w h cx cy hw hh, inv cx cy⟩, ?_⟩
  intro cx2 cy2 heq
  rw [normViewport_fin w h cx cy hw hh, normViewport_fin w h cx2 cy2 hw hh] at heq
  simp only [Normalized.mk.injEq, JSNum.fin.injEq] at heq
  have e := inv cx cy
  rw [heq.1, heq.2, inv cx2 cy2] at e
  simp only [Prod.mk.injEq] at e
  exact ⟨e.1.symm, e.2.symm⟩

/-- C5, the amended claim at the viewport 1000 x 500 and the pointer (250, 125). -/
theorem C5_invertible_witness :
    (1000 : ℚ) ≠ 0 ∧ (500 : ℚ) ≠ 0 ∧
    ∃ nx ny : ℚ, normViewport (.fin 1000) (.fin 500) (.fin 250) (.fin 125)
        = ⟨.fin nx, .fin ny⟩ ∧ denormViewport 1000 500 nx ny = (250, 125) :=
  ⟨by norm_num, by norm_num, (C5_invertible 1000 500 250 125 (by norm_num) (by norm_num)).1⟩

/-- C6: for a viewport with positive width and height, every pointer inside the viewport
rectangle is normalized into `[-1, 1] x [-1, 1]`, the top-left corner `(0, 0)` goes to
`(-1, 1)` and the bottom-right corner `(viewportW, viewportH)` goes to `(1, -1)`; the inline
copy in the iframe script does the same. -/
theorem C6_viewport_to_square (w h : ℚ) (hw : 0 < w) (hh : 0 < h) :
    (∀ cx cy : ℚ, 0 ≤ cx → cx ≤ w → 0 ≤ cy → cy ≤ h →
      JSNum.within (-1) 1 (normViewport (.fin w) (.fin h) (.fin cx) (.fin cy)).nx ∧
      JSNum.within (-1) 1 (normViewport (.fin w) (.fin h) (.fin cx) (.fin cy)).ny) ∧
    normViewport (.fin w) (.fin h) (.fin 0) (.fin 0) = ⟨.fin (-1), .fin 1⟩ ∧
    normViewport (.fin w) (.fin h) (.fin w) (.fin h) = ⟨.fin 1, .fin (-1)⟩ ∧
    iframeNorm (.fin w) (.fin h) (.fin 0) (.fin 0) = ⟨.fin (-1), .fin 1⟩ ∧
    iframeNorm (.fin w) (.fin h) (.fin w) (.fin h) = ⟨.fin 1, .fin (-1)⟩ := by
  have hw0 : w ≠ 0 := hw.ne.symm
  have hh0 : h ≠ 0 := hh.ne.symm
  have c0 : normViewport (.fin w) (.fin h) (.fin 0) (.fin 0) = ⟨.fin (-1), .fin 1⟩ := by
    rw [normViewport_fin w h 0 0 hw0 hh0]; norm_num
  have c1 : normViewport (.fin w) (.fin h) (.fin w) (.fin h) = ⟨.fin 1, .fin (-1)⟩ := by
    rw [normViewport_fin w h w h hw0 hh0, div_self hw0, div_self hh0]; norm_num
  refine ⟨?_, c0, c1, (iframeNorm_eq _ _ _ _).trans c0, (iframeNorm_eq _ _ _ _).trans c1⟩
  intro cx cy h1 h2 h3 h4
  rw [normViewport_fin w h cx cy hw0 hh0]
  simp only [JSNum.within]
  exact ⟨(affine_range w cx hw).mpr ⟨h1, h2⟩, (affine_range_neg h cy hh).mpr ⟨h3, h4⟩⟩

/-- C6 at the viewport 1000 x 500: the two corners. -/
theorem C6_viewport_to_square_witness :
    (0 : ℚ) < 1000 ∧ (0 : ℚ) < 500 ∧
    normViewport (.fin 1000) (.fin 500) (.fin 0) (.fin 0) = ⟨.fin (-1), .fin 1⟩ ∧
    normViewport (.fin 1000) (.fin 500) (.fin 1000) (.fin 500) = ⟨.fin 1, .fin (-1)⟩ :=
  ⟨by norm_num, by norm_num,
    (C6_viewport_to_square 1000 500 (by norm_num) (by norm_num)).2.1,
    (C6_viewport_to_square 1000 500 (by norm_num) (by norm_num)).2.2.1⟩

/-! ## Theorems: safeEmit -/

/-- One call of `safeEmit` is the call of the selected transport: nothing happens without a
transport, a call that returns gives `true`, a call that throws is followed by the warning and
gives `false`. -/
theorem safeEmit_eq (viewer : Option Viewer) (n : String) (p : Obj) :
    safeEmit viewer n p =
      match chosenTransport viewer with
      | none => ⟨[], .normal false⟩
      | some t =>
        match t.call n p with
        | .returned => ⟨[t.attempt n p], .normal true⟩
        | .threw => ⟨[t.attempt n p, .warn], .normal false⟩ := by
  rcases viewer with _ | ⟨e, inner, sr⟩
  · rfl
  · rcases e with _ | f
    · rcases inner with _ | ⟨_ | g⟩
      · rcases sr with _ | root
        · rfl
        · rcases hq : root.querySelector "iframe" with _ | ⟨_ | w⟩
          · simp [safeEmit, safeEmitTry, chosenTransport, hq]
          · simp [safeEmit, safeEmitTry, chosenTransport, hq]
          · cases hc : w.postMessage (taggedMessage n p) "*" <;>
              simp [safeEmit, safeEmitTry, chosenTransport, hq, Transport.call,
                Transport.attempt, taggedMessage] at hc ⊢ <;> simp [hc]
      · rcases sr with _ | root
        · rfl
        · rcases hq : root.querySelector "iframe" with _ | ⟨_ | w⟩
          · simp [safeEmit, safeEmitTry, chosenTransport, hq]
          · simp [safeEmit, safeEmitTry, chosenTransport, hq]
          · cases hc : w.postMessage (taggedMessage n p) "*" <;>
              simp [safeEmit, safeEmitTry, chosenTransport, hq, Transport.call,
                Transport.attempt, taggedMessage] at hc ⊢ <;> simp [hc]
      · cases hc : g n p <;>
          simp [safeEmit, safeEmitTry, chosenTransport, Transport.call, Transport.attempt, hc]
    · cases hc : f n p <;>
        simp [safeEmit, safeEmitTry, chosenTransport, Transport.call, Transport.attempt, hc]

/-- A transport is selected exactly when one is structurally present. -/
theorem chosenTransport_eq_none_iff (viewer : Option Viewer) :
    chosenTransport viewer = none ↔ hasTransport viewer = false := by
  rcases viewer with _ | ⟨e, inner, sr⟩
  · simp [chosenTransport, hasTransport]
  · rcases e with _ | f
    · rcases inner with _ | ⟨_ | g⟩ <;> rcases sr with _ | root <;>
        simp [chosenTransport, hasTransport, hasDirect, hasNested, hasFrameWindow]
      · rcases hq : root.querySelector "iframe" with _ | ⟨_ | w⟩ <;> simp
      · rcases hq : root.querySelector "iframe" with _ | ⟨_ | w⟩ <;> simp
    · simp [chosenTransport, hasTransport, hasDirect]

/-- The direct method is selected whenever it is present. -/
theorem chosenTransport_direct (v : Viewer) (h : hasDirect v = true) :
    ∃ f, v.emitEvent = some f ∧ chosenTransport (some v) = some (.direct f) := by
  rcases v with ⟨_ | f, inner, sr⟩
  · simp [hasDirect] at h
  · exact ⟨f, rfl, rfl⟩

/-- The nested method is selected when the direct one is absent and it is present. -/
theorem chosenTransport_nested (v : Viewer) (h1 : hasDirect v = false)
    (h2 : hasNested v = true) : ∃ g, chosenTransport (some v) = some (.nested g) := by
  rcases v with ⟨_ | f, _ | ⟨_ | g⟩, sr⟩ <;> simp [hasDirect, hasNested] at h1 h2
  exact ⟨g, rfl⟩

/-- The message post is selected when both methods are absent and the inner frame has a
window. -/
theorem chosenTransport_post (v : Viewer) (h1 : hasDirect v = false)
    (h2 : hasNested v = false) (h3 : hasFrameWindow v = true) :
    ∃ w, chosenTransport (some v) = some (.post w) := by
  rcases v with ⟨_ | f, _ | ⟨_ | g⟩, _ | root⟩ <;>
    simp [hasDirect, hasNested, hasFrameWindow] at h1 h2 h3
  · rcases hq : root.querySelector "iframe" with _ | ⟨_ | w⟩ <;> simp [hq] at h3
    exact ⟨w, by simp [chosenTransport, hq]⟩
  · rcases hq : root.querySelector "iframe" with _ | ⟨_ | w⟩ <;> simp [hq] at h3
    exact ⟨w, by simp [chosenTransport, hq]⟩

/-- The attempt of a transport is a delivery attempt. -/
theorem Transport.attempt_isAttempt (n : String) (p : Obj) (t : Transport) :
    (t.attempt n p).isAttempt = true := by
  cases t <;> rfl

/-- The delivery attempts of one call of `safeEmit`: the attempt of the selected transport,
when there is one. -/
theorem safeEmit_attempts (viewer : Option Viewer) (n : String) (p : Obj) :
    (safeEmit viewer n p).attempts = (chosenTransport viewer).toList.map (Transport.attempt n p) := by
  rw [safeEmit_eq]
  rcases chosenTransport viewer with _ | t
  · rfl
  · have hw : Effect.isAttempt .warn = false := rfl
    cases hc : t.call n p <;>
      simp [hc, Run.attempts, List.filter_cons, Transport.attempt_isAttempt, hw]

/-- One call of `safeEmit` never completes by a thrown exception. -/
theorem safeEmit_not_thrown (viewer : Option Viewer) (n : String) (p : Obj) :
    (safeEmit viewer n p).completion ≠ .thrown := by
  rw [safeEmit_eq]
  rcases chosenTransport viewer with _ | t
  · simp
  · cases hc : t.call n p <;> simp [hc]

/-- C1, the claim as stated fails: `throwingViewer` has a transport structurally present (its
`emitEvent` is a function, and its shadow root holds an iframe with a window), the call of
`emitEvent` throws, and `safeEmit` returns `false`. -/
theorem C1_counterexample :
    hasTransport (some throwingViewer) = true ∧
    (safeEmit (some throwingViewer) "headBob" Obj.empty).completion = .normal false := by
  constructor
  · rfl
  · rfl

/-- C1, amended: `safeEmit` returns `false` when none of the three transports is structurally
present; when at least one is present, it returns `true` exactly when the call on the selected
transport (the first present one) returns, and `false` when that call throws; two payloads on
which the selected transport ends the same way give the same boolean. -/
theorem C1_safeEmit_result (viewer : Option Viewer) (eventName : String) (payload : Obj) :
    (hasTransport viewer = false →
      (safeEmit viewer eventName payload).completion = .normal false) ∧
    (hasTransport viewer = true →
      ∃ t, chosenTransport viewer = some t ∧
        (safeEmit viewer eventName payload).completion
          = .normal (decide (t.call eventName payload = .returned))) ∧
    (∀ payload2 : Obj,
      (∀ t, chosenTransport viewer = some t →
        t.call eventName payload2 = t.call eventName payload) →
      (safeEmit viewer eventName payload2).completion
        = (safeEmit viewer eventName payload).completion) := by
  refine ⟨?_, ?_, ?_⟩
  · intro h
    rw [safeEmit_eq, (chosenTransport_eq_none_iff viewer).mpr h]
  · intro h
    rcases hc : chosenTransport viewer with _ | t
    · rw [(chosenTransport_eq_none_iff viewer).mp hc] at h
      exact absurd h (by decide)
    · refine ⟨t, rfl, ?_⟩
      rw [safeEmit_eq, hc]
      cases ho : t.call eventName payload <;> simp [ho]
  · intro payload2 h
    rw [safeEmit_eq, safeEmit_eq]
    rcases hc : chosenTransport viewer with _ | t
    · rfl
    · simp only []
      rw [h t hc]
      cases ho : t.call eventName payload <;> simp [ho]

/-- C1, the amended claim at `bareViewer` (no transport: `false`) and at `directViewer` (its
`emitEvent` returns: `true`). -/
theorem C1_safeEmit_result_witness :
    (hasTransport (some bareViewer) = false ∧
      (safeEmit (some bareViewer) "headBob" Obj.empty).completion = .normal false) ∧
    (hasTransport (some directViewer) = true ∧
      ∃ t, chosenTransport (some directViewer) = some t ∧
        (safeEmit (some directViewer) "headBob" Obj.empty).completion
          = .normal (decide (t.call "headBob" Obj.empty = .returned))) :=
  ⟨⟨rfl, (C1_safeEmit_result (some bareViewer) "headBob" Obj.empty).1 rfl⟩,
    ⟨rfl, (C1_safeEmit_result (some directViewer) "headBob" Obj.empty).2.1 rfl⟩⟩

/-- C2, the claim as stated fails: for `bareViewer`, a viewer object on which none of the
three transports is structurally present, one call of `safeEmit` attempts delivery on no
transport at all, not on exactly one. -/
theorem C2_counterexample :
    hasTransport (some bareViewer) = false ∧
    (safeEmit (some bareViewer) "headBob" Obj.empty).attempts = [] ∧
    (safeEmit (some bareViewer) "headBob" Obj.empty).attempts.length ≠ 1 := by
  refine ⟨rfl, rfl, by decide⟩

/-- C2, amended: one call of `safeEmit` attempts delivery on at most one transport: on exactly
one when at least one transport is structurally present, namely the first present one in the
order `viewer.emitEvent`, `viewer.viewer.emitEvent`, `postMessage` to the inner frame (a
lower-priority transport only when every higher-priority one is absent), and on none when no
transport is present.  The call never completes by a thrown exception, and when the call on
the selected transport throws, the effects are that one attempt followed by the warning (no
other transport is attempted), and the result is `false`. -/
theorem C2_one_transport_by_priority (viewer : Option Viewer) (eventName : String)
    (payload : Obj) :
    (∀ v, viewer = some v → hasDirect v = true →
      (safeEmit viewer eventName payload).attempts = [.emitEvent eventName payload]) ∧
    (∀ v, viewer = some v → hasDirect v = false → hasNested v = true →
      (safeEmit viewer eventName payload).attempts = [.innerEmitEvent eventName payload]) ∧
    (∀ v, viewer = some v → hasDirect v = false → hasNested v = false →
      hasFrameWindow v = true →
      (safeEmit viewer eventName payload).attempts
        = [.postMessage (taggedMessage eventName payload) "*"]) ∧
    (hasTransport viewer = false → (safeEmit viewer eventName payload).attempts = []) ∧
    (hasTransport viewer = true → (safeEmit viewer eventName payload).attempts.length = 1) ∧
    (safeEmit viewer eventName payload).completion ≠ .thrown ∧
    (∀ t, chosenTransport viewer = some t → t.call eventName payload = .threw →
      (safeEmit viewer eventName payload).effects = [t.attempt eventName payload, .warn] ∧
      (safeEmit viewer eventName payload).completion = .normal false) := by
  refine ⟨?_, ?_, ?_, ?_, ?_, safeEmit_not_thrown viewer eventName payload, ?_⟩
  · rintro v rfl h
    obtain ⟨f, _, hc⟩ := chosenTransport_direct v h
    rw [safeEmit_attempts, hc]; rfl
  · rintro v rfl h1 h2
    obtain ⟨g, hc⟩ := chosenTransport_nested v h1 h2
    rw [safeEmit_attempts, hc]; rfl
  · rintro v rfl h1 h2 h3
    obtain ⟨w, hc⟩ := chosenTransport_post v h1 h2 h3
    rw [safeEmit_attempts, hc]; rfl
  · intro h
    rw [safeEmit_attempts, (chosenTransport_eq_none_iff viewer).mpr h]; rfl
  · intro h
    rw [safeEmit_attempts]
    rcases hc : chosenTransport viewer with _ | t
    · rw [(chosenTransport_eq_none_iff viewer).mp hc] at h
      exact absurd h (by decide)
    · rfl
  · intro t hc ht
    rw [safeEmit_eq, hc]
    simp [ht]

/-- C2 at `throwingViewer`, whose `emitEvent` throws while its inner frame is available: the
only attempt is on `emitEvent`. -/
theorem C2_one_transport_by_priority_witness :
    hasDirect throwingViewer = true ∧
    (safeEmit (some throwingViewer) "headBob" Obj.empty).attempts
      = [.emitEvent "headBob" Obj.empty] :=
  ⟨rfl, (C2_one_transport_by_priority (some throwingViewer) "headBob" Obj.empty).1
    throwingViewer rfl rfl⟩

/-- C3, the claim as stated fails: for the payload `{ type: "other" }` sent as event
`"hideEyes"` through the inner frame of `frameViewer`, the posted message has
`type = "other"`, not the event name. -/
theorem C3_counterexample :
    ∃ m : Obj,
      (safeEmit (some frameViewer) "hideEyes" (Obj.empty.set "type" (.str "other"))).effects
        = [.postMessage m "*"] ∧
      m "type" = some (.str "other") ∧ m "type" ≠ some (.str "hideEyes") := by
  refine ⟨taggedMessage "hideEyes" (Obj.empty.set "type" (.str "other")), rfl, ?_, ?_⟩
  · simp [taggedMessage, objectAssign, Obj.set]
  · simp [taggedMessage, objectAssign, Obj.set]

/-- C3, amended: when `safeEmit` delivers through the postMessage transport, the posted
message carries every field of the payload, and, for a payload that has no field named
`__from` or `type` of its own, the sender identifier `__from = "spline-wrapper"` and the event
type `type = eventName`. -/
theorem C3_posted_message (v : Viewer) (eventName : String) (payload : Obj)
    (h1 : hasDirect v = false) (h2 : hasNested v = false) (h3 : hasFrameWindow v = true) :
    ∃ m : Obj,
      (safeEmit (some v) eventName payload).attempts = [.postMessage m "*"] ∧
      (∀ key value, payload key = some value → m key = some value) ∧
      (payload "__from" = none → m "__from" = some (.str "spline-wrapper")) ∧
      (payload "type" = none → m "type" = some (.str eventName)) := by
  obtain ⟨w, hc⟩ := chosenTransport_post v h1 h2 h3
  refine ⟨taggedMessage eventName payload, ?_, ?_, ?_, ?_⟩
  · rw [safeEmit_attempts, hc]; rfl
  · intro key value hk
    simp [taggedMessage, objectAssign, hk]
  · intro hk
    simp [taggedMessage, objectAssign, Obj.set, hk]
  · intro hk
    simp [taggedMessage, objectAssign, Obj.set, hk]

/-- C3, the amended claim at `frameViewer`, the event `"hideEyes"` and the payload
`{ value: true }`. -/
theorem C3_posted_message_witness :
    hasDirect frameViewer = false ∧ hasNested frameViewer = false ∧
    hasFrameWindow frameViewer = true ∧
    ∃ m : Obj,
      (safeEmit (some frameViewer) "hideEyes" (Obj.empty.set "value" (.bool true))).attempts
        = [.postMessage m "*"] ∧
      (∀ key value, Obj.empty.set "value" (.bool true) key = some value → m key = some value) ∧
      ((Obj.empty.set "value" (.bool true)) "__from" = none →
        m "__from" = some (.str "spline-wrapper")) ∧
      ((Obj.empty.set "value" (.bool true)) "type" = none → m "type" = some (.str "hideEyes")) :=
  ⟨rfl, rfl, rfl,
    C3_posted_message frameViewer "hideEyes" (Obj.empty.set "value" (.bool true)) rfl rfl rfl⟩

/-! ## Theorems: throttle -/

/-- Calls whose readings are all closer than `wait` to `last` are all dropped. -/
theorem Throttled.calls_dropped {α : Type} (t : Throttled) (calls : List (Int × α))
    (h : ∀ c ∈ calls, c.1 - t.last < t.wait) : t.calls calls = (t, []) := by
  induction calls with
  | nil => rfl
  | cons c rest ih =>
    obtain ⟨now, args⟩ := c
    have h0 : ¬ (now - t.last ≥ t.wait) := not_le.mpr (h (now, args) (List.mem_cons_self _ _))
    have ih2 := ih (fun c hc => h c (List.mem_cons_of_mem _ hc))
    simp [Throttled.calls, Throttled.call, h0, ih2]

/-- Within a window shorter than `wait`, the invocations are the first call that passes the
gate, if any. -/
theorem Throttled.calls_window {α : Type} (t : Throttled) (calls : List (Int × α))
    (hwin : ∀ a ∈ calls, ∀ b ∈ calls, a.1 - b.1 < t.wait) :
    (t.calls calls).2
      = ((calls.find? (fun c => decide (t.wait ≤ c.1 - t.last))).map Prod.snd).toList := by
  induction calls with
  | nil => rfl
  | cons c rest ih =>
    obtain ⟨now, args⟩ := c
    by_cases h0 : t.wait ≤ now - t.last
    · have hd : (⟨t.wait, now⟩ : Throttled).calls rest = (⟨t.wait, now⟩, []) :=
        Throttled.calls_dropped ⟨t.wait, now⟩ rest
          (fun c hc => hwin c (List.mem_cons_of_mem _ hc) (now, args) (List.mem_cons_self _ _))
      simp [Throttled.calls, Throttled.call, h0, hd, List.find?_cons]
    · have ih2 := ih (fun a ha b hb =>
        hwin a (List.mem_cons_of_mem _ ha) b (List.mem_cons_of_mem _ hb))
      simp [Throttled.calls, Throttled.call, h0, ih2, List.find?_cons]

/-- The invocations made during a sequence of calls carry arguments of those calls, in
order. -/
theorem Throttled.calls_sublist {α : Type} (calls : List (Int × α)) :
    ∀ t : Throttled, List.Sublist (t.calls calls).2 (calls.map Prod.snd) := by
  induction calls with
  | nil => intro t; exact List.Sublist.refl _
  | cons c rest ih =>
    intro t
    obtain ⟨now, args⟩ := c
    by_cases h0 : t.wait ≤ now - t.last
    · simpa [Throttled.calls, Throttled.call, h0] using ih ⟨t.wait, now⟩
    · simpa [Throttled.calls, Throttled.call, h0] using (ih t).cons args

/-- The invocations of a sequence of calls followed by another. -/
theorem Throttled.calls_append {α : Type} (calls more : List (Int × α)) :
    ∀ t : Throttled, (t.calls (calls ++ more)).2
      = (t.calls calls).2 ++ ((t.calls calls).1.calls more).2 := by
  induction calls with
  | nil => intro t; rfl
  | cons c rest ih =>
    intro t
    obtain ⟨now, args⟩ := c
    simp [Throttled.calls, ih]

/-- When the first call passes the gate and every next reading is beyond `wait` after the
one before, every call invokes `fn` with its own arguments. -/
theorem Throttled.calls_spaced {α : Type} (calls : List (Int × α)) :
    ∀ t : Throttled, (∀ c, calls.head? = some c → t.wait ≤ c.1 - t.last) →
      List.Chain' (fun a b : Int × α => t.wait < b.1 - a.1) calls →
      (t.calls calls).2 = calls.map Prod.snd := by
  induction calls with
  | nil => intro t _ _; rfl
  | cons c rest ih =>
    intro t hfirst hgap
    obtain ⟨now, args⟩ := c
    have h0 : t.wait ≤ now - t.last := hfirst (now, args) rfl
    have ih2 := ih ⟨t.wait, now⟩
      (fun c hc => le_of_lt (List.Chain'.rel_head? hgap hc))
      (List.Chain'.tail hgap)
    simp [Throttled.calls, Throttled.call, h0, ih2]

/-- C7, the claim as stated fails: a function made by `throttle(fn, 100)` that is called at the
clock readings 10, 20 and 30 (a window of 20, shorter than 100) never invokes `fn`, because the
gate compares the reading with the initial `last = 0`; likewise, with the clock at
1790000000000, for an interval of 2000000000000. -/
theorem C7_counterexample :
    ((∀ a ∈ [((10 : Int), "a"), (20, "b"), (30, "c")],
        ∀ b ∈ [((10 : Int), "a"), (20, "b"), (30, "c")], a.1 - b.1 < 100) ∧
      ((throttle 100).calls [(10, "a"), (20, "b"), (30, "c")]).2 = []) ∧
    ((∀ a ∈ [((1790000000000 : Int), "a"), (1790000000005, "b")],
        ∀ b ∈ [((1790000000000 : Int), "a"), (1790000000005, "b")],
          a.1 - b.1 < 2000000000000) ∧
      ((throttle 2000000000000).calls [(1790000000000, "a"), (1790000000005, "b")]).2 = []) := by
  refine ⟨⟨by decide, by decide⟩, ⟨by decide, by decide⟩⟩

/-- C7, amended: when a function made by `throttle(fn, wait)` receives calls whose clock
readings all fall within a window shorter than `wait`, `fn` is invoked at most once: exactly
once when some reading is at least `wait` (the gate `now - 0 >= wait` of the first invocation),
namely at the first such call and with its arguments, and not at all when every reading is
below `wait`.  The other calls are dropped: whatever calls follow, the later invocations carry
arguments of those later calls only.  From any value of `last`, such a window holds at most one
invocation. -/
theorem C7_window_one_send {α : Type} (wait : Int) (calls : List (Int × α))
    (hwin : ∀ a ∈ calls, ∀ b ∈ calls, a.1 - b.1 < wait) :
    ((throttle wait).calls calls).2
      = ((calls.find? (fun c => decide (wait ≤ c.1))).map Prod.snd).toList ∧
    ((∃ c ∈ calls, wait ≤ c.1) → ((throttle wait).calls calls).2.length = 1) ∧
    ((∀ c ∈ calls, c.1 < wait) → ((throttle wait).calls calls).2 = []) ∧
    (∀ more : List (Int × α),
      ∃ later : List α, List.Sublist later (more.map Prod.snd) ∧
        ((throttle wait).calls (calls ++ more)).2
          = ((throttle wait).calls calls).2 ++ later) ∧
    (∀ last : Int, ((Throttled.mk wait last).calls calls).2.length ≤ 1) := by
  have key : ((throttle wait).calls calls).2
      = ((calls.find? (fun c => decide (wait ≤ c.1))).map Prod.snd).toList := by
    have h := Throttled.calls_window (throttle wait) calls hwin
    simpa [throttle] using h
  refine ⟨key, ?_, ?_, ?_, ?_⟩
  · rintro ⟨c, hc, hle⟩
    rw [key]
    rcases hf : calls.find? (fun c => decide (wait ≤ c.1)) with _ | d
    · have := List.find?_eq_none.mp hf c hc
      simp [hle] at this
    · rw [hf]; rfl
  · intro hall
    rw [key]
    have hf : calls.find? (fun c => decide (wait ≤ c.1)) = none := by
      rw [List.find?_eq_none]
      intro c hc
      simpa using hall c hc
    rw [hf]; rfl
  · intro more
    exact ⟨_, Throttled.calls_sublist more _, Throttled.calls_append calls more _⟩
  · intro last
    rw [Throttled.calls_window (Throttled.mk wait last) calls hwin]
    have hlen : ∀ o : Option α, o.toList.length ≤ 1 := by
      intro o; cases o <;> simp
    exact hlen _

/-- C7, the amended claim at `throttle(fn, 16)` and the readings 1000, 1005, 1010: only the
first call invokes `fn`. -/
theorem C7_window_one_send_witness :
    (∀ a ∈ [((1000 : Int), "a"), (1005, "b"), (1010, "c")],
      ∀ b ∈ [((1000 : Int), "a"), (1005, "b"), (1010, "c")], a.1 - b.1 < 16) ∧
    ((throttle 16).calls [(1000, "a"), (1005, "b"), (1010, "c")]).2
      = (([((1000 : Int), "a"), (1005, "b"), (1010, "c")].find?
          (fun c => decide (16 ≤ c.1))).map Prod.snd).toList ∧
    ((throttle 16).calls [(1000, "a"), (1005, "b"), (1010, "c")]).2 = ["a"] :=
  ⟨by decide,
    (C7_window_one_send 16 [(1000, "a"), (1005, "b"), (1010, "c")] (by decide)).1,
    by decide⟩

/-- C8, the claim as stated fails: a function made by `throttle(fn, 100)` that is called at the
clock readings 10, 200 and 400 (consecutive readings more than 100 apart) does not invoke `fn`
at the first call, because `10 - 0 < 100`; likewise, with the clock starting at 1790000000000,
for an interval of 2000000000000. -/
theorem C8_counterexample :
    (List.Chain' (fun a b : Int × String => (100 : Int) < b.1 - a.1)
        [(10, "a"), (200, "b"), (400, "c")] ∧
      ((throttle 100).calls [(10, "a"), (200, "b"), (400, "c")]).2 = ["b", "c"]) ∧
    (List.Chain' (fun a b : Int × String => (2000000000000 : Int) < b.1 - a.1)
        [(1790000000000, "a"), (3800000000000, "b")] ∧
      ((throttle 2000000000000).calls [(1790000000000, "a"), (3800000000000, "b")]).2
        = ["b"]) := by
  refine ⟨⟨by simp, by decide⟩, ⟨by simp, by decide⟩⟩

/-- C8, amended: when the clock reading of the first call is at least `wait` and every next
reading is beyond `wait` after the one before, every call to a function made by
`throttle(fn, wait)` invokes `fn`, with the arguments of that call. -/
theorem C8_spaced_all_sent {α : Type} (wait : Int) (calls : List (Int × α))
    (hfirst : ∀ c, calls.head? = some c → wait ≤ c.1)
    (hgap : List.Chain' (fun a b : Int × α => wait < b.1 - a.1) calls) :
    ((throttle wait).calls calls).2 = calls.map Prod.snd := by
  apply Throttled.calls_spaced calls (throttle wait)
  · intro c hc
    simpa [throttle] using hfirst c hc
  · simpa [throttle] using hgap

/-- C8, the amended claim at `throttle(fn, 16)` and the readings 1000, 1020, 1040. -/
theorem C8_spaced_all_sent_witness :
    (∀ c, [((1000 : Int), "a"), (1020, "b"), (1040, "c")].head? = some c → (16 : Int) ≤ c.1) ∧
    List.Chain' (fun a b : Int × String => (16 : Int) < b.1 - a.1)
      [(1000, "a"), (1020, "b"), (1040, "c")] ∧
    ((throttle 16).calls [(1000, "a"), (1020, "b"), (1040, "c")]).2 = ["a", "b", "c"] :=
  ⟨by simp, by simp,
    C8_spaced_all_sent 16 [(1000, "a"), (1020, "b"), (1040, "c")] (by simp) (by simp)⟩

/-! ## Theorems: the readiness detector -/

/-- One signal never re-attaches a listener or sets the interval again. -/
theorem Page.step_flags (p : Page) (s : Signal) :
    ((p.step s).loadBound = true → p.loadBound = true) ∧
    ((p.step s).readyBound = true → p.readyBound = true) ∧
    ((p.step s).viewerReadyBound = true → p.viewerReadyBound = true) ∧
    ((p.step s).polling = true → p.polling = true) := by
  cases s <;> simp only [Page.step, pollTick, onViewerReady, hideFallback] <;>
    split_ifs <;> simp_all

/-- A sequence of signals never re-attaches a listener or sets the interval again. -/
theorem Page.run_flags (signals : List Signal) :
    ∀ p : Page,
      ((p.run signals).loadBound = true → p.loadBound = true) ∧
      ((p.run signals).readyBound = true → p.readyBound = true) ∧
      ((p.run signals).viewerReadyBound = true → p.viewerReadyBound = true) ∧
      ((p.run signals).polling = true → p.polling = true) := by
  induction signals with
  | nil => intro p; simp [Page.run]
  | cons s rest ih =>
    intro p
    have h1 := ih (p.step s)
    have h2 := Page.step_flags p s
    simp only [Page.run, List.foldl_cons] at h1 ⊢
    exact ⟨fun h => h2.1 (h1.1 h), fun h => h2.2.1 (h1.2.1 h),
      fun h => h2.2.2.1 (h1.2.2.1 h), fun h => h2.2.2.2 (h1.2.2.2 h)⟩

/-- One signal invokes `onViewerReady` at most once, and uses up a source when it does. -/
theorem Page.step_budget (p : Page) (s : Signal) :
    (p.step s).readyCalls + (p.step s).sources ≤ p.readyCalls + p.sources := by
  cases s <;> simp only [Page.step, pollTick, onViewerReady, hideFallback, Page.sources] <;>
    split_ifs <;> simp_all

/-- A sequence of signals invokes `onViewerReady` no more often than it uses up sources. -/
theorem Page.run_budget (signals : List Signal) :
    ∀ p : Page, (p.run signals).readyCalls + (p.run signals).sources
      ≤ p.readyCalls + p.sources := by
  induction signals with
  | nil => intro p; simp [Page.run]
  | cons s rest ih =>
    intro p
    have h1 := ih (p.step s)
    have h2 := Page.step_budget p s
    simp only [Page.run, List.foldl_cons] at h1 ⊢
    omega

/-- A sequence of signals followed by another. -/
theorem Page.run_append (p : Page) (before after : List Signal) :
    p.run (before ++ after) = (p.run before).run after := by
  simp [Page.run, List.foldl_append]

/-- An event whose one-shot listener is detached changes nothing. -/
theorem Page.step_event_detached (p : Page) :
    (p.loadBound = false → p.step .load = p) ∧
    (p.readyBound = false → p.step .ready = p) ∧
    (p.viewerReadyBound = false → p.step .viewerReadyEvent = p) ∧
    (p.polling = false → ∀ v now, p.step (.pollTick v now) = p) := by
  refine ⟨?_, ?_, ?_, ?_⟩ <;> intro h <;> simp [Page.step, h]

/-- After an event was handled, its listener is detached; after a tick that invoked
`onViewerReady`, the interval is cleared. -/
theorem Page.step_detaches (p : Page) :
    (p.step .load).loadBound = false ∧
    (p.step .ready).readyBound = false ∧
    (p.step .viewerReadyEvent).viewerReadyBound = false ∧
    (∀ v now, (p.step (.pollTick v now)).readyCalls ≠ p.readyCalls →
      (p.step (.pollTick v now)).polling = false) := by
  refine ⟨?_, ?_, ?_, ?_⟩
  · simp only [Page.step, onViewerReady]; split_ifs <;> simp_all
  · simp only [Page.step, onViewerReady]; split_ifs <;> simp_all
  · simp only [Page.step, onViewerReady]; split_ifs <;> simp_all
  · intro v now
    simp only [Page.step, pollTick, onViewerReady]
    split_ifs <;> simp_all

/-- The name is in the class list after `classList.add(name)`. -/
theorem mem_classListAdd (classes : List String) (name : String) :
    name ∈ classListAdd classes name := by
  unfold classListAdd
  split_ifs with h
  · exact h
  · simp

/-- One signal either leaves the page ready with the class set, or does not touch the
invocation count, the flag and the class list. -/
theorem Page.step_ready (p : Page) (s : Signal) :
    ((p.step s).viewerReady = true ∧ "spline-loaded" ∈ (p.step s).holderClasses) ∨
    ((p.step s).readyCalls = p.readyCalls ∧ (p.step s).viewerReady = p.viewerReady ∧
      (p.step s).holderClasses = p.holderClasses) := by
  have hm := fun q : Page => mem_classListAdd q.holderClasses "spline-loaded"
  cases s <;> simp only [Page.step, pollTick, hideFallback] <;> split_ifs <;>
    first
    | exact Or.inr ⟨rfl, rfl, rfl⟩
    | exact Or.inl ⟨rfl, hm _⟩

/-- Once `onViewerReady` was invoked, the page is ready and the class is set. -/
theorem Page.run_ready (signals : List Signal) :
    ∀ p : Page, (1 ≤ p.readyCalls → p.viewerReady = true ∧ "spline-loaded" ∈ p.holderClasses) →
      1 ≤ (p.run signals).readyCalls →
      (p.run signals).viewerReady = true ∧ "spline-loaded" ∈ (p.run signals).holderClasses := by
  induction signals with
  | nil => intro p h; simpa [Page.run] using h
  | cons s rest ih =>
    intro p h
    have h2 : 1 ≤ (p.step s).readyCalls →
        (p.step s).viewerReady = true ∧ "spline-loaded" ∈ (p.step s).holderClasses := by
      intro h1
      rcases Page.step_ready p s with hl | ⟨e1, e2, e3⟩
      · exact hl
      · rw [e2, e3]; exact h (e1 ▸ h1)
    simpa [Page.run] using ih (p.step s) h2

/-- C9, the claim as stated fails: after `tryBindReady()`, the viewer dispatching `load` and
then `ready` invokes `onViewerReady` twice (and starts the fade-out timeout twice); so does a
`load` event followed by a poll tick that finds `emitEvent`. -/
theorem C9_counterexample :
    ((boundPage [] (some sampleFallback) 0).run [.load, .ready]).readyCalls = 2 ∧
    ((boundPage [] (some sampleFallback) 0).run [.load, .ready]).hideTimers = 2 ∧
    ((boundPage [] (some sampleFallback) 0).run
      [.load, .pollTick directViewer 220]).readyCalls = 2 := by
  refine ⟨rfl, rfl, rfl⟩

/-- C9, amended: each of the four signal sources (the one-shot listeners of `load`, `ready`
and `viewer-ready`, and the poll) invokes `onViewerReady` at most once, so it is invoked at
most four times: an event that was already handled changes nothing, and once a poll tick has
invoked `onViewerReady` no later tick does.  After the first invocation `viewerReady` is true
and the holder has the class `spline-loaded`, and a repeated invocation leaves `viewerReady`,
the class list and the style of the fallback image as the first one set them. -/
theorem C9_ready_at_most_once_per_source (holderClasses : List String)
    (fallbackImage : Option FallbackImage) (start : Int) (signals : List Signal) :
    ((boundPage holderClasses fallbackImage start).run signals).readyCalls ≤ 4 ∧
    (∀ before after : List Signal,
      signals = before ++ .load :: after →
        ((boundPage holderClasses fallbackImage start).run signals).step .load
          = (boundPage holderClasses fallbackImage start).run signals) ∧
    (∀ before after : List Signal,
      signals = before ++ .ready :: after →
        ((boundPage holderClasses fallbackImage start).run signals).step .ready
          = (boundPage holderClasses fallbackImage start).run signals) ∧
    (∀ before after : List Signal,
      signals = before ++ .viewerReadyEvent :: after →
        ((boundPage holderClasses fallbackImage start).run signals).step .viewerReadyEvent
          = (boundPage holderClasses fallbackImage start).run signals) ∧
    (∀ (before after : List Signal) (v : Viewer) (now : Int),
      signals = before ++ .pollTick v now :: after →
      (((boundPage holderClasses fallbackImage start).run before).step
          (.pollTick v now)).readyCalls
        ≠ ((boundPage holderClasses fallbackImage start).run before).readyCalls →
      ∀ (v2 : Viewer) (now2 : Int),
        ((boundPage holderClasses fallbackImage start).run signals).step (.pollTick v2 now2)
          = (boundPage holderClasses fallbackImage start).run signals) ∧
    (1 ≤ ((boundPage holderClasses fallbackImage start).run signals).readyCalls →
      ((boundPage holderClasses fallbackImage start).run signals).viewerReady = true ∧
      "spline-loaded" ∈ ((boundPage holderClasses fallbackImage start).run signals).holderClasses) ∧
    (∀ p : Page,
      (onViewerReady (onViewerReady p)).viewerReady = (onViewerReady p).viewerReady ∧
      (onViewerReady (onViewerReady p)).holderClasses = (onViewerReady p).holderClasses ∧
      (onViewerReady (onViewerReady p)).fallbackImage = (onViewerReady p).fallbackImage) := by
  have split : ∀ (before after : List Signal) (s : Signal), signals = before ++ s :: after →
      (boundPage holderClasses fallbackImage start).run signals
        = (((boundPage holderClasses fallbackImage start).run before).step s).run after := by
    intro before after s h
    rw [h, Page.run_append]
    rfl
  refine ⟨?_, ?_, ?_, ?_, ?_, ?_, ?_⟩
  · have h := Page.run_budget signals (boundPage holderClasses fallbackImage start)
    have h0 : (boundPage holderClasses fallbackImage start).readyCalls
        + (boundPage holderClasses fallbackImage start).sources = 4 := rfl
    omega
  · intro before after h
    apply (Page.step_event_detached _).1
    rw [split before after _ h]
    have h1 := (Page.run_flags after (((boundPage holderClasses fallbackImage start).run
      before).step .load)).1
    have h2 := (Page.step_detaches ((boundPage holderClasses fallbackImage start).run before)).1
    cases hb : ((((boundPage holderClasses fallbackImage start).run before).step
      .load).run after).loadBound
    · rfl
    · rw [h1 hb] at h2; exact absurd h2 (by decide)
  · intro before after h
    apply (Page.step_event_detached _).2.1
    rw [split before after _ h]
    have h1 := (Page.run_flags after (((boundPage holderClasses fallbackImage start).run
      before).step .ready)).2.1
    have h2 := (Page.step_detaches ((boundPage holderClasses fallbackImage start).run
      before)).2.1
    cases hb : ((((boundPage holderClasses fallbackImage start).run before).step
      .ready).run after).readyBound
    · rfl
    · rw [h1 hb] at h2; exact absurd h2 (by decide)
  · intro before after h
    apply (Page.step_event_detached _).2.2.1
    rw [split before after _ h]
    have h1 := (Page.run_flags after (((boundPage holderClasses fallbackImage start).run
      before).step .viewerReadyEvent)).2.2.1
    have h2 := (Page.step_detaches ((boundPage holderClasses fallbackImage start).run
      before)).2.2.1
    cases hb : ((((boundPage holderClasses fallbackImage start).run before).step
      .viewerReadyEvent).run after).viewerReadyBound
    · rfl
    · rw [h1 hb] at h2; exact absurd h2 (by decide)
  · intro before after v now h hne v2 now2
    apply (Page.step_event_detached _).2.2.2
    rw [split before after _ h]
    have h1 := (Page.run_flags after (((boundPage holderClasses fallbackImage start).run
      before).step (.pollTick v now))).2.2.2
    have h2 := (Page.step_detaches ((boundPage holderClasses fallbackImage start).run
      before)).2.2.2 v now hne
    cases hb : ((((boundPage holderClasses fallbackImage start).run before).step
      (.pollTick v now)).run after).polling
    · rfl
    · rw [h1 hb] at h2; exact absurd h2 (by decide)
  · exact Page.run_ready signals (boundPage holderClasses fallbackImage start)
      (fun h => by simp [boundPage, tryBindReady, initialPage] at h)
  · intro p
    refine ⟨rfl, ?_, ?_⟩
    · show classListAdd (classListAdd p.holderClasses "spline-loaded") "spline-loaded"
        = classListAdd p.holderClasses "spline-loaded"
      have hm := mem_classListAdd p.holderClasses "spline-loaded"
      generalize classListAdd p.holderClasses "spline-loaded" = l at hm ⊢
      simp [classListAdd, hm]
    · cases hf : p.fallbackImage <;> simp [onViewerReady, hf]

/-- C9, the amended claim at the signals `load`, `ready`, `load`: two invocations, the page is
ready, and a further `load` changes nothing. -/
theorem C9_ready_at_most_once_per_source_witness :
    1 ≤ ((boundPage [] (some sampleFallback) 0).run [.load, .ready, .load]).readyCalls ∧
    ((boundPage [] (some sampleFallback) 0).run [.load, .ready, .load]).readyCalls = 2 ∧
    ((boundPage [] (some sampleFallback) 0).run [.load, .ready, .load]).viewerReady = true ∧
    ((boundPage [] (some sampleFallback) 0).run [.load, .ready, .load]).step .load
      = (boundPage [] (some sampleFallback) 0).run [.load, .ready, .load] :=
  ⟨by decide, rfl,
    ((C9_ready_at_most_once_per_source [] (some sampleFallback) 0
      [.load, .ready, .load]).2.2.2.2.2.1 (by decide)).1,
    (C9_ready_at_most_once_per_source [] (some sampleFallback) 0
      [.load, .ready, .load]).2.1 [] [.ready, .load] rfl⟩

/-! ## Theorems: dispatch before readiness -/

/-- The effects of `sendCursorInternal` are those of its two calls of `safeEmit`, in order,
and it completes normally. -/
theorem sendCursorInternal_effects (splineViewer : Option Viewer) (nx ny : JSNum) :
    (sendCursorInternal splineViewer nx ny).effects
      = (safeEmit splineViewer "cursorHeadFast" (pointPayload nx ny)).effects
        ++ (safeEmit splineViewer "cursorBodySlow" (pointPayload nx ny)).effects ∧
    (sendCursorInternal splineViewer nx ny).completion ≠ .thrown := by
  have h1 := safeEmit_not_thrown splineViewer "cursorHeadFast" (pointPayload nx ny)
  have h2 := safeEmit_not_thrown splineViewer "cursorBodySlow" (pointPayload nx ny)
  unfold sendCursorInternal
  cases hc1 : (safeEmit splineViewer "cursorHeadFast" (pointPayload nx ny)).completion with
  | thrown => exact absurd hc1 h1
  | normal b1 =>
    cases hc2 : (safeEmit splineViewer "cursorBodySlow" (pointPayload nx ny)).completion with
    | thrown => exact absurd hc2 h2
    | normal b2 => simp [hc1, hc2]

/-- For a viewer element that exists, the effects of the function behind `sendCursor` are
those of one call of `sendCursorInternal`, whatever `viewerReady` is. -/
theorem sendCursorBody_effects (viewerReady : Bool) (v : Viewer) (w h : JSNum)
    (e : MoveEvent) :
    ∃ nx ny : JSNum, (sendCursorBody viewerReady (some v) w h e).effects
      = (sendCursorInternal (some v) nx ny).effects := by
  have key : ∀ nx ny : JSNum,
      (match (sendCursorInternal (some v) nx ny).completion with
        | Completion.thrown =>
          (⟨(sendCursorInternal (some v) nx ny).effects, Completion.thrown⟩ : Run Unit)
        | Completion.normal _ =>
          ⟨(sendCursorInternal (some v) nx ny).effects, Completion.normal ()⟩).effects
        = (sendCursorInternal (some v) nx ny).effects := by
    intro nx ny
    cases hc : (sendCursorInternal (some v) nx ny).completion <;> simp [hc]
  simp only [sendCursorBody, Option.isNone_some, Bool.and_false, Bool.false_eq_true, if_false]
  exact ⟨_, _, key _ _⟩

/-- C10, the claim as stated fails: with `viewerReady` false, a viewer that already exposes
`emitEvent`, a viewport 1000 x 500 and a mouse move at (750, 125) when the clock reads 1000,
`sendCursor` delivers the two cursor envelopes: its guard `!viewerReady && !splineViewer` lets
every call through when the viewer element exists. -/
theorem C10_counterexample :
    (sendCursor (throttle 16) 1000 false (some directViewer) (.fin 1000) (.fin 500)
        ⟨some (.fin 750), some (.fin 125), none⟩).2.attempts
      = [.emitEvent "cursorHeadFast" (pointPayload (.fin (1 / 2)) (.fin (1 / 2))),
         .emitEvent "cursorBodySlow" (pointPayload (.fin (1 / 2)) (.fin (1 / 2)))] := by
  have hn : normViewport (.fin 1000) (.fin 500) (.fin 750) (.fin 125)
      = ⟨.fin (1 / 2), .fin (1 / 2)⟩ := by
    rw [normViewport_fin 1000 500 750 125 (by norm_num) (by norm_num)]
    norm_num
  simp [sendCursor, Throttled.call, throttle, sendCursorBody, toNumber, hn,
    sendCursorInternal, safeEmit, safeEmitTry, directViewer, Run.attempts, Effect.isAttempt]

/-- C10, amended: while `viewerReady` is false, the head-bob tick and the `pageReady` timer
deliver no envelope.  `sendCursor` is not gated on readiness: for a viewer element that exists
it does the same with `viewerReady` false as with `viewerReady` true, which is to hand the two
cursor envelopes to `safeEmit` whenever the throttle lets the call through; so before
readiness it delivers nothing when no transport is structurally present, and delivers both
envelopes on the selected transport when one is. -/
theorem C10_dispatch_before_ready (splineViewer : Option Viewer) (now : Int) (t : Throttled)
    (w h : JSNum) (e : MoveEvent) :
    (headBobTick false splineViewer now).effects = [] ∧
    (pageReadyTimer false splineViewer now).effects = [] ∧
    (∀ v, splineViewer = some v →
      sendCursor t now false splineViewer w h e = sendCursor t now true splineViewer w h e) ∧
    (hasTransport splineViewer = false →
      (sendCursor t now false splineViewer w h e).2.effects = []) ∧
    (∀ tr, chosenTransport splineViewer = some tr → now - t.last ≥ t.wait →
      ∃ nx ny : JSNum, (sendCursor t now false splineViewer w h e).2.attempts
        = [tr.attempt "cursorHeadFast" (pointPayload nx ny),
           tr.attempt "cursorBodySlow" (pointPayload nx ny)]) := by
  refine ⟨rfl, rfl, ?_, ?_, ?_⟩
  · rintro v rfl
    simp [sendCursor, sendCursorBody]
  · intro hno
    have hnone := (chosenTransport_eq_none_iff splineViewer).mpr hno
    have hse : ∀ n p, (safeEmit splineViewer n p).effects = [] := by
      intro n p
      rw [safeEmit_eq, hnone]
    rcases hc : (t.call now e).2 with _ | ev
    · simp only [sendCursor, hc]
    · rcases splineViewer with _ | v
      · simp [sendCursor, hc, sendCursorBody]
      · obtain ⟨nx, ny, hb⟩ := sendCursorBody_effects false v w h ev
        simp only [sendCursor, hc, hb, (sendCursorInternal_effects (some v) nx ny).1, hse,
          List.append_nil]
  · intro tr htr hgate
    rcases splineViewer with _ | v
    · simp [chosenTransport] at htr
    · have hcall : t.call now e = (⟨t.wait, now⟩, some e) := by
        simp [Throttled.call, hgate]
      obtain ⟨nx, ny, hb⟩ := sendCursorBody_effects false v w h e
      refine ⟨nx, ny, ?_⟩
      have h1 := safeEmit_attempts (some v) "cursorHeadFast" (pointPayload nx ny)
      have h2 := safeEmit_attempts (some v) "cursorBodySlow" (pointPayload nx ny)
      rw [htr] at h1 h2
      simp only [Run.attempts] at h1 h2 ⊢
      simp only [sendCursor, hcall, hb, (sendCursorInternal_effects (some v) nx ny).1,
        List.filter_append, h1, h2]
      rfl

/-- C10, the amended claim at `viewerReady` false: with `bareViewer` (no transport)
`sendCursor` has no effect; with `directViewer` and the clock at 1000 it makes the two delivery
attempts on `emitEvent`. -/
theorem C10_dispatch_before_ready_witness :
    (hasTransport (some bareViewer) = false ∧
      (sendCursor (throttle 16) 1000 false (some bareViewer) (.fin 1000) (.fin 500)
        ⟨some (.fin 750), some (.fin 125), none⟩).2.effects = []) ∧
    (chosenTransport (some directViewer) = some (.direct (fun _ _ => .returned)) ∧
      (1000 : Int) - (throttle 16).last ≥ (throttle 16).wait ∧
      ∃ nx ny : JSNum,
        (sendCursor (throttle 16) 1000 false (some directViewer) (.fin 1000) (.fin 500)
          ⟨some (.fin 750), some (.fin 125), none⟩).2.attempts
        = [Transport.attempt "cursorHeadFast" (pointPayload nx ny)
            (.direct (fun _ _ => .returned)),
           Transport.attempt "cursorBodySlow" (pointPayload nx ny)
            (.direct (fun _ _ => .returned))]) :=
  ⟨⟨rfl, (C10_dispatch_before_ready (some bareViewer) 1000 (throttle 16) (.fin 1000) (.fin 500)
      ⟨some (.fin 750), some (.fin 125), none⟩).2.2.2.1 rfl⟩,
    ⟨rfl, by decide,
      (C10_dispatch_before_ready (some directViewer) 1000 (throttle 16) (.fin 1000) (.fin 500)
        ⟨some (.fin 750), some (.fin 125), none⟩).2.2.2.2 _ rfl (by decide)⟩⟩

/-! ## Theorems: presentation toggles -/

/-- Adding a class that is present changes nothing. -/
theorem classListAdd_of_mem (classes : List String) (name : String) (h : name ∈ classes) :
    classListAdd classes name = classes := by
  simp [classListAdd, h]

/-- The classes after `classList.add(name)`. -/
theorem mem_classListAdd_iff (classes : List String) (name c : String) :
    c ∈ classListAdd classes name ↔ c ∈ classes ∨ c = name := by
  unfold classListAdd
  split_ifs with h
  · constructor
    · exact Or.inl
    · rintro (h1 | h1)
      · exact h1
      · rw [h1]; exact h
  · simp

/-- The classes after `classList.remove(name)`. -/
theorem mem_classListRemove_iff (classes : List String) (name c : String) :
    c ∈ classListRemove classes name ↔ c ∈ classes ∧ c ≠ name := by
  simp [classListRemove]

/-- Removing a class that is absent changes nothing. -/
theorem classListRemove_of_not_mem (classes : List String) (name : String)
    (h : name ∉ classes) : classListRemove classes name = classes := by
  unfold classListRemove
  rw [List.filter_eq_self]
  intro c hc
  have : c ≠ name := fun e => h (e ▸ hc)
  simpa using this

/-- The two class toggles of `toggleRobotAura`, done twice, give what they give done once. -/
theorem auraToggles_idem (classes : List String) (b : Bool) :
    classListToggle
        (classListToggle
          (classListToggle (classListToggle classes "robot-aura-on" b) "robot-aura-off" (!b))
          "robot-aura-on" b)
        "robot-aura-off" (!b)
      = classListToggle (classListToggle classes "robot-aura-on" b) "robot-aura-off" (!b) := by
  have hne : ("robot-aura-on" : String) ≠ "robot-aura-off" := by decide
  cases b
  · simp only [classListToggle, Bool.not_false, if_true, Bool.false_eq_true, if_false]
    have h1 : "robot-aura-on" ∉
        classListAdd (classListRemove classes "robot-aura-on") "robot-aura-off" := by
      rw [mem_classListAdd_iff, mem_classListRemove_iff]
      rintro (⟨_, h⟩ | h)
      · exact h rfl
      · exact hne h
    rw [classListRemove_of_not_mem _ _ h1]
    exact classListAdd_of_mem _ _ (mem_classListAdd _ _)
  · simp only [classListToggle, Bool.not_true, if_true, Bool.false_eq_true, if_false]
    have h1 : "robot-aura-on" ∈
        classListRemove (classListAdd classes "robot-aura-on") "robot-aura-off" := by
      rw [mem_classListRemove_iff]
      exact ⟨mem_classListAdd _ _, hne⟩
    rw [classListAdd_of_mem _ _ h1]
    apply classListRemove_of_not_mem
    rw [mem_classListRemove_iff]
    exact fun h => h.2 rfl

/-- The class state after the two class toggles of `toggleRobotAura`. -/
theorem auraToggles_mem (classes : List String) (b : Bool) :
    ("robot-aura-on" ∈
        classListToggle (classListToggle classes "robot-aura-on" b) "robot-aura-off" (!b)
      ↔ b = true) ∧
    ("robot-aura-off" ∈
        classListToggle (classListToggle classes "robot-aura-on" b) "robot-aura-off" (!b)
      ↔ b = false) := by
  have hne : ("robot-aura-on" : String) ≠ "robot-aura-off" := by decide
  cases b
  · simp only [classListToggle, Bool.not_false, if_true, Bool.false_eq_true, if_false]
    refine ⟨?_, ?_⟩
    · rw [mem_classListAdd_iff, mem_classListRemove_iff]
      simp [hne]
    · simp [mem_classListAdd]
  · simp only [classListToggle, Bool.not_true, if_true, Bool.false_eq_true, if_false]
    refine ⟨?_, ?_⟩
    · rw [mem_classListRemove_iff]
      simp [mem_classListAdd, hne]
    · rw [mem_classListRemove_iff]
      simp

/-- The run of `toggleRobotAura` is the run of its one call of `safeEmit`, and the class list
afterwards is the one the two class toggles give. -/
theorem toggleRobotAura_eq (splineViewer : Option Viewer) (p : Page) (onArg : Option Val) :
    (toggleRobotAura splineViewer p onArg).2.effects
      = (safeEmit splineViewer "robotAura" (valuePayload onArg)).effects ∧
    (toggleRobotAura splineViewer p onArg).2.completion = .normal () ∧
    (toggleRobotAura splineViewer p onArg).1
      = { p with holderClasses := (classListToggle
            (classListToggle p.holderClasses "robot-aura-on" (truthy onArg))
            "robot-aura-off" (!truthy onArg)) } := by
  have h := safeEmit_not_thrown splineViewer "robotAura" (valuePayload onArg)
  unfold toggleRobotAura
  cases hc : (safeEmit splineViewer "robotAura" (valuePayload onArg)).completion with
  | thrown => exact absurd hc h
  | normal b => simp [hc]

/-- C11, the claim as stated fails on its second half: with a viewer that has no transport,
`toggleRobotAura(true)` of `assets/js/script.js` delivers no envelope; in the iframe script the
call posts nothing when the element `splineFrame` is missing, and does nothing at all when the
element `splineHolder` is missing. -/
theorem C11_counterexample :
    (toggleRobotAura (some bareViewer) (boundPage [] none 0) (some (.bool true))).2.attempts
      = [] ∧
    (iframeToggleRobotAura (some []) none (some (.bool true))).2.effects = [] ∧
    (iframeToggleRobotAura none (some ⟨some ⟨fun _ _ => .returned⟩⟩)
      (some (.bool true))).2.effects = [] := by
  refine ⟨rfl, rfl, rfl⟩

/-- C11, amended: `toggleRobotAura` is idempotent on the presentation state: a second call
with the same argument leaves the page as the first call left it, with `robot-aura-on` set
exactly when `!!on` is true and `robot-aura-off` exactly when it is false.  Every call makes
exactly one call of `safeEmit` with the envelope `robotAura`, `{ value: !!on }`: one delivery
attempt when a transport is structurally present, none otherwise.  The iframe script is
idempotent in the same way, and posts exactly the message `{ type: "robotAura", value: !!on }`
when the holder exists and the frame has a window, and nothing otherwise. -/
theorem C11_toggleRobotAura (splineViewer viewer2 : Option Viewer) (p : Page)
    (onArg : Option Val) :
    (toggleRobotAura viewer2 (toggleRobotAura splineViewer p onArg).1 onArg).1
      = (toggleRobotAura splineViewer p onArg).1 ∧
    ("robot-aura-on" ∈ (toggleRobotAura splineViewer p onArg).1.holderClasses
      ↔ truthy onArg = true) ∧
    ("robot-aura-off" ∈ (toggleRobotAura splineViewer p onArg).1.holderClasses
      ↔ truthy onArg = false) ∧
    (toggleRobotAura splineViewer p onArg).2.effects
      = (safeEmit splineViewer "robotAura" (valuePayload onArg)).effects ∧
    (hasTransport splineViewer = true →
      ∃ t, chosenTransport splineViewer = some t ∧
        (toggleRobotAura splineViewer p onArg).2.attempts
          = [t.attempt "robotAura" (valuePayload onArg)]) ∧
    (hasTransport splineViewer = false →
      (toggleRobotAura splineViewer p onArg).2.attempts = []) ∧
    (∀ (holder : Option (List String)) (iframe iframe2 : Option Iframe),
      (iframeToggleRobotAura (iframeToggleRobotAura holder iframe onArg).1 iframe2 onArg).1
        = (iframeToggleRobotAura holder iframe onArg).1 ∧
      (∀ classes w, holder = some classes →
        iframe.bind (fun el => el.contentWindow) = some w →
        (iframeToggleRobotAura holder iframe onArg).2.effects
          = [.postMessage (auraMessage onArg) "*"]) ∧
      (holder = none ∨ iframe.bind (fun el => el.contentWindow) = none →
        (iframeToggleRobotAura holder iframe onArg).2.effects = [])) := by
  obtain ⟨e1, _, e3⟩ := toggleRobotAura_eq splineViewer p onArg
  have hatt : (toggleRobotAura splineViewer p onArg).2.attempts
      = (safeEmit splineViewer "robotAura" (valuePayload onArg)).attempts := by
    simp only [Run.attempts, e1]
  refine ⟨?_, ?_, ?_, e1, ?_, ?_, ?_⟩
  · rw [(toggleRobotAura_eq viewer2 _ onArg).2.2, e3]
    simp only [auraToggles_idem]
  · rw [e3]; exact (auraToggles_mem p.holderClasses (truthy onArg)).1
  · rw [e3]; exact (auraToggles_mem p.holderClasses (truthy onArg)).2
  · intro h
    rcases hc : chosenTransport splineViewer with _ | t
    · rw [(chosenTransport_eq_none_iff splineViewer).mp hc] at h
      exact absurd h (by decide)
    · exact ⟨t, rfl, by rw [hatt, safeEmit_attempts, hc]; rfl⟩
  · intro h
    rw [hatt, safeEmit_attempts, (chosenTransport_eq_none_iff splineViewer).mpr h]; rfl
  · intro holder iframe iframe2
    have hfst : ∀ (h : Option (List String)) (f : Option Iframe),
        (iframeToggleRobotAura h f onArg).1 = h.map (fun classes =>
          classListToggle (classListToggle classes "robot-aura-on" (truthy onArg))
            "robot-aura-off" (!truthy onArg)) := by
      intro h f
      rcases h with _ | classes
      · rfl
      · simp only [iframeToggleRobotAura, Option.map_some']
        rcases f.bind (fun el => el.contentWindow) with _ | w
        · rfl
        · cases hc : w.postMessage (auraMessage onArg) "*" <;> simp [hc]
    refine ⟨?_, ?_, ?_⟩
    · rw [hfst, hfst]
      rcases holder with _ | classes
      · rfl
      · simp only [Option.map_some', auraToggles_idem]
    · rintro classes w rfl hw
      simp only [iframeToggleRobotAura, hw]
      cases hc : w.postMessage (auraMessage onArg) "*" <;> simp [hc]
    · rintro (rfl | hw)
      · rfl
      · rcases holder with _ | classes
        · rfl
        · simp only [iframeToggleRobotAura, hw]

/-- C11, the amended claim at `on = true`, the viewer `directViewer` and a holder without
classes: the class list after one call and after two is `robot-aura-on`, and the call makes one
delivery attempt. -/
theorem C11_toggleRobotAura_witness :
    hasTransport (some directViewer) = true ∧
    (toggleRobotAura (some directViewer)
        (toggleRobotAura (some directViewer) (boundPage [] none 0) (some (.bool true))).1
        (some (.bool true))).1
      = (toggleRobotAura (some directViewer) (boundPage [] none 0) (some (.bool true))).1 ∧
    (toggleRobotAura (some directViewer) (boundPage [] none 0)
        (some (.bool true))).1.holderClasses = ["robot-aura-on"] ∧
    ∃ t, chosenTransport (some directViewer) = some t ∧
      (toggleRobotAura (some directViewer) (boundPage [] none 0) (some (.bool true))).2.attempts
        = [t.attempt "robotAura" (valuePayload (some (.bool true)))] :=
  ⟨rfl,
    (C11_toggleRobotAura (some directViewer) (some directViewer) (boundPage [] none 0)
      (some (.bool true))).1,
    by decide,
    (C11_toggleRobotAura (some directViewer) (some directViewer) (boundPage [] none 0)
      (some (.bool true))).2.2.2.2.1 rfl⟩

/-! ## Theorems: the poll timeout -/

/-- A tick that finds no capability marker resolves readiness exactly when more than the
timeout has elapsed since the start. -/
theorem pollTick_incapable (p : Page) (v : Viewer) (now : Int) (h : pollCapable v = false) :
    pollTick p v now
      = if now - p.start > pollTimeout then onViewerReady { p with polling := false } else p := by
  rcases v with ⟨_ | f, inner, _ | root⟩
  · simp [pollTick]
  · rcases hq : root.querySelector "iframe" with _ | ⟨_ | w⟩
    · simp [pollTick, hq]
    · simp [pollTick, hq]
    · simp [pollCapable, hasDirect, hasFrameWindow, hq] at h
  · simp [pollCapable, hasDirect] at h
  · simp [pollCapable, hasDirect] at h

/-- The ticks up to tick `n + 1` are the ticks up to tick `n` followed by tick `n + 1`. -/
theorem pollTicks_succ (start : Int) (viewers : Nat → Viewer) (n : Nat) :
    pollTicks start viewers (n + 1)
      = pollTicks start viewers n
        ++ [Signal.pollTick (viewers (n + 1)) (start + pollInterval * ((n : Int) + 1))] := by
  simp [pollTicks, List.range_succ]

/-- While the elapsed time of the ticks does not exceed the timeout, the poll leaves the page
as `tryBindReady` left it. -/
theorem run_pollTicks_early (holderClasses : List String) (fallbackImage : Option FallbackImage)
    (start : Int) (viewers : Nat → Viewer) (hcap : ∀ k, pollCapable (viewers k) = false) :
    ∀ n : Nat, pollInterval * (n : Int) ≤ pollTimeout →
      (boundPage holderClasses fallbackImage start).run (pollTicks start viewers n)
        = boundPage holderClasses fallbackImage start := by
  intro n
  induction n with
  | zero => intro _; rfl
  | succ n ih =>
    intro h
    have hpos : (0 : Int) ≤ pollInterval := by decide
    have h1 : pollInterval * (n : Int) ≤ pollTimeout := by
      have : pollInterval * (n : Int) ≤ pollInterval * ((n : Int) + 1) := by nlinarith
      push_cast at h
      linarith
    rw [pollTicks_succ, Page.run_append, ih h1]
    have hstart : (boundPage holderClasses fallbackImage start).start = start := rfl
    have hpoll : (boundPage holderClasses fallbackImage start).polling = true := rfl
    have hel : ¬ (start + pollInterval * ((n : Int) + 1) - start > pollTimeout) := by
      push_cast at h
      have : start + pollInterval * ((n : Int) + 1) - start = pollInterval * ((n : Int) + 1) := by
        ring
      rw [this]
      exact not_lt.mpr h
    simp only [Page.run, List.foldl_cons, List.foldl_nil, Page.step, hpoll, if_true]
    rw [pollTick_incapable _ _ _ (hcap (n + 1)), hstart, if_neg hel]

/-- From tick 19 on, the poll has resolved readiness, once. -/
theorem run_pollTicks_late (holderClasses : List String) (fallbackImage : Option FallbackImage)
    (start : Int) (viewers : Nat → Viewer) (hcap : ∀ k, pollCapable (viewers k) = false) :
    ∀ n : Nat, 19 ≤ n →
      (boundPage holderClasses fallbackImage start).run (pollTicks start viewers n)
        = onViewerReady { boundPage holderClasses fallbackImage start with polling := false } := by
  intro n hn
  induction n, hn using Nat.le_induction with
  | base =>
    rw [pollTicks_succ, Page.run_append,
      run_pollTicks_early holderClasses fallbackImage start viewers hcap 18 (by decide)]
    have hstart : (boundPage holderClasses fallbackImage start).start = start := rfl
    have hpoll : (boundPage holderClasses fallbackImage start).polling = true := rfl
    have hel : start + pollInterval * (((18 : Nat) : Int) + 1) - start > pollTimeout := by
      have : start + pollInterval * (((18 : Nat) : Int) + 1) - start
          = pollInterval * (((18 : Nat) : Int) + 1) := by ring
      rw [this]
      decide
    simp only [Page.run, List.foldl_cons, List.foldl_nil, Page.step, hpoll, if_true]
    rw [pollTick_incapable _ _ _ (hcap (18 + 1)), hstart, if_pos hel]
  | succ n _ ih =>
    rw [pollTicks_succ, Page.run_append, ih]
    simp [Page.run, Page.step, onViewerReady]

/-- C12: when no ready event fires and no poll tick finds a capability marker, with the ticks
at the elapsed times `220 * k`, the poll does not resolve readiness while the elapsed time is
at most 4000 ms, and has resolved it (one invocation of `onViewerReady`, the interval cleared)
from tick 19 on; tick 19 is the first tick whose elapsed time exceeds 4000 ms, and its elapsed
time, 4180 ms, is at most `timeoutMs + pollInterval` = 4220 ms. -/
theorem C12_poll_resolves_within_bound (holderClasses : List String)
    (fallbackImage : Option FallbackImage) (start : Int) (viewers : Nat → Viewer)
    (hcap : ∀ k, pollCapable (viewers k) = false) (n : Nat) :
    (pollInterval * (n : Int) ≤ pollTimeout →
      ((boundPage holderClasses fallbackImage start).run
          (pollTicks start viewers n)).viewerReady = false ∧
      ((boundPage holderClasses fallbackImage start).run
          (pollTicks start viewers n)).readyCalls = 0 ∧
      ((boundPage holderClasses fallbackImage start).run
          (pollTicks start viewers n)).polling = true) ∧
    (19 ≤ n →
      ((boundPage holderClasses fallbackImage start).run
          (pollTicks start viewers n)).viewerReady = true ∧
      ((boundPage holderClasses fallbackImage start).run
          (pollTicks start viewers n)).readyCalls = 1 ∧
      ((boundPage holderClasses fallbackImage start).run
          (pollTicks start viewers n)).polling = false) ∧
    (pollTimeout < pollInterval * 19 ∧ pollInterval * 19 ≤ pollTimeout + pollInterval) ∧
    (∀ k : Nat, pollTimeout < pollInterval * (k : Int) → 19 ≤ k) := by
  refine ⟨?_, ?_, ⟨by decide, by decide⟩, ?_⟩
  · intro h
    rw [run_pollTicks_early holderClasses fallbackImage start viewers hcap n h]
    exact ⟨rfl, rfl, rfl⟩
  · intro h
    rw [run_pollTicks_late holderClasses fallbackImage start viewers hcap n h]
    exact ⟨rfl, rfl, rfl⟩
  · intro k hk
    by_contra hlt
    have h18 : (k : Int) ≤ 18 := by omega
    have : pollInterval * (k : Int) ≤ pollInterval * 18 :=
      mul_le_mul_of_nonneg_left h18 (by decide)
    have h2 : pollInterval * 18 ≤ pollTimeout := by decide
    linarith

/-- C12 at a viewer that never exposes anything: after 18 ticks (3960 ms) the page is not
ready, after 19 ticks (4180 ms) it is. -/
theorem C12_poll_resolves_within_bound_witness :
    (∀ k : Nat, pollCapable ((fun _ => bareViewer) k) = false) ∧
    pollInterval * ((18 : Nat) : Int) ≤ pollTimeout ∧
    ((boundPage [] (some sampleFallback) 0).run
        (pollTicks 0 (fun _ => bareViewer) 18)).viewerReady = false ∧
    ((boundPage [] (some sampleFallback) 0).run
        (pollTicks 0 (fun _ => bareViewer) 19)).viewerReady = true :=
  ⟨fun _ => rfl, by decide,
    ((C12_poll_resolves_within_bound [] (some sampleFallback) 0 (fun _ => bareViewer)
      (fun _ => rfl) 18).1 (by decide)).1,
    ((C12_poll_resolves_within_bound [] (some sampleFallback) 0 (fun _ => bareViewer)
      (fun _ => rfl) 19).2.1 (by decide)).1⟩

end Portfolio
